import Mathlib

/-!
Verification of the peer-group reconciler management plane and its satellite
subsystems (storage client, jujuc RPC server, API addresser, transaction
runner queue guard).

The peer-group core (Topology Computer, Address Publisher, manifold
constructor) is specified by the system design document; its definitions here
are modelled from that specification.  The satellite subsystems are embedded
directly from their Go sources.
-/

/- ===================== Peer-group reconciler data model ===================== -/

/-- Modelled from the spec: a ControllerMember observation — stable id, a
chosen resolvable network address (none when unresolvable), the
wants-controller-role flag and a liveness indicator. -/
structure Controller where
  id : Nat
  addr : Option String
  wantsVote : Bool
  alive : Bool
deriving DecidableEq, Repr

/-- Modelled from the spec: a Topology is a set of ReplicaSetMember keyed by
id, each member carrying a voting flag and a single chosen address.  Here the
member ids, the subset of ids with voting flag true, and the id-to-address
association are stored. -/
structure Topology where
  members : Finset Nat
  voters : Finset Nat
  addrs : List (Nat × String)

instance : DecidableEq Topology := fun a b =>
  decidable_of_iff
    (a.members = b.members ∧ a.voters = b.voters ∧ a.addrs = b.addrs)
    (by cases a; cases b; rw [Topology.mk.injEq])

/-- Modelled from the spec: the Topology Computer produces "no change",
exactly one next Topology, or reports a fatal condition when no safe
topology exists. -/
inductive ComputeResult where
  | noChange : ComputeResult
  | change : Topology → ComputeResult
  | fatal : ComputeResult

instance : DecidableEq ComputeResult := fun a b =>
  match a, b with
  | ComputeResult.noChange, ComputeResult.noChange => isTrue rfl
  | ComputeResult.fatal, ComputeResult.fatal => isTrue rfl
  | ComputeResult.change t1, ComputeResult.change t2 =>
    decidable_of_iff (t1 = t2)
      ⟨fun h => by rw [h], fun h => by injection h⟩
  | ComputeResult.noChange, ComputeResult.change _ => isFalse nofun
  | ComputeResult.noChange, ComputeResult.fatal => isFalse nofun
  | ComputeResult.change _, ComputeResult.noChange => isFalse nofun
  | ComputeResult.change _, ComputeResult.fatal => isFalse nofun
  | ComputeResult.fatal, ComputeResult.noChange => isFalse nofun
  | ComputeResult.fatal, ComputeResult.change _ => isFalse nofun

/-- The set of members of a topology whose voting flag is true. -/
def vmem (t : Topology) : Finset Nat := t.voters ∩ t.members

/-- Address recorded for member `i` in topology `t` (empty when absent). -/
def addrOf (t : Topology) (i : Nat) : String :=
  (((t.addrs.find? (fun p => p.1 == i))).map (fun p => p.2)).getD ""

/-- The chosen address of controller `i` in the observed snapshot, if any. -/
def snapAddr (snap : List Controller) (i : Nat) : Option String :=
  (snap.find? (fun c => c.id == i)).bind (fun c => c.addr)

/-- Modelled from the spec: controllers that want the controller role, are
alive and have a resolvable address are eligible for voting membership. -/
def eligibleIds (snap : List Controller) : Finset Nat :=
  ((snap.filter (fun c => c.wantsVote && c.alive && c.addr.isSome)).map
    (fun c => c.id)).toFinset

/-- Deterministic choice of a candidate: the least id of the set. -/
def pick (s : Finset Nat) : Nat := s.min.untop' 0

/-- The greatest id of the set (0 on the empty set). -/
def maxId (s : Finset Nat) : Nat := s.max.unbot' 0

/-- Modelled from the spec: the ideal voter set — all eligible members, with
the highest-id eligible candidate held back as non-voting whenever the
natural voter count would be even (odd invariant, lowest ids preferred). -/
def targetVoters (E : Finset Nat) : Finset Nat :=
  if E.card % 2 = 1 then E else E.erase (maxId E)

/-- Majority (quorum) size of a voter set of size `n`: ⌈(n+1)/2⌉. -/
def majority (n : Nat) : Nat := (n + 2) / 2

/-- Canonical address for member `i`: the snapshot's chosen address when the
controller is known, otherwise the address already recorded in `applied`. -/
def canonAddr (snap : List Controller) (applied : Topology) (i : Nat) : String :=
  (snapAddr snap i).getD (addrOf applied i)

/-- Deterministic ascending id/address association list for a member set. -/
def mkAddrs (s : Finset Nat) (f : Nat → String) : List (Nat × String) :=
  ((List.range (maxId s + 1)).filter (fun i => i ∈ s)).map (fun i => (i, f i))

/-- Build the emitted topology: member set, voter set, canonical addresses. -/
def mkTop (snap : List Controller) (applied : Topology)
    (M V : Finset Nat) : Topology :=
  ⟨M, V, mkAddrs M (canonAddr snap applied)⟩

/-- Members of `t` whose recorded address disagrees with the snapshot's
chosen address (address drift to be republished). -/
def mismatchSet (snap : List Controller) (t : Topology) : Finset Nat :=
  t.members.filter (fun i => canonAddr snap t i ≠ addrOf t i)

/-- Voting members of `applied` that the ideal target would demote. -/
def dSet (snap : List Controller) (applied : Topology) : Finset Nat :=
  vmem applied \ targetVoters (eligibleIds snap)

/-- Ideal target voters not yet voting in `applied`. -/
def aSet (snap : List Controller) (applied : Topology) : Finset Nat :=
  targetVoters (eligibleIds snap) \ vmem applied

/-- Non-voting members of `applied` that are no longer wanted at all. -/
def cSet (snap : List Controller) (applied : Topology) : Finset Nat :=
  applied.members \ (eligibleIds snap ∪ vmem applied)

/-- Modelled from the spec: the Topology Computer.  Given the observed
controller snapshot and the applied configuration it emits "no change" or a
single safe step toward the ideal target, honouring (in priority order) the
odd-voter invariant, the minimal-change rule and quorum-preserving removal;
with no eligible controller at all it reports a fatal condition.  Every
emitted topology also refreshes member addresses from the snapshot. -/
def computeTopology (snap : List Controller) (applied : Topology) : ComputeResult :=
  if eligibleIds snap = ∅ then ComputeResult.fatal
  else if vmem applied = ∅ then
    -- bootstrap: adopt the full ideal target at once (no quorum yet to protect)
    ComputeResult.change (mkTop snap applied (eligibleIds snap)
      (targetVoters (eligibleIds snap)))
  else if (vmem applied).card % 2 = 0 then
    -- parity repair: restore the odd invariant before anything else
    if aSet snap applied = ∅ then
      if 4 ≤ (vmem applied).card then
        ComputeResult.change (mkTop snap applied applied.members
          ((vmem applied).erase (pick (dSet snap applied))))
      else ComputeResult.noChange
    else
      ComputeResult.change (mkTop snap applied
        (insert (pick (aSet snap applied)) applied.members)
        (insert (pick (aSet snap applied)) (vmem applied)))
  else if eligibleIds snap \ applied.members ≠ ∅ then
    -- bring a missing eligible controller in as a non-voting member
    ComputeResult.change (mkTop snap applied
      (insert (pick (eligibleIds snap \ applied.members)) applied.members)
      (vmem applied))
  else if dSet snap applied ≠ ∅ ∧ aSet snap applied ≠ ∅ ∧ 3 ≤ (vmem applied).card then
    -- swap: demote an unwanted voter, promote a replacement in the same step
    ComputeResult.change (mkTop snap applied applied.members
      (insert (pick (aSet snap applied))
        ((vmem applied).erase (pick (dSet snap applied)))))
  else if 2 ≤ (aSet snap applied).card then
    -- grow the voter set by two to keep the count odd
    ComputeResult.change (mkTop snap applied applied.members
      (insert (pick ((aSet snap applied).erase (pick (aSet snap applied))))
        (insert (pick (aSet snap applied)) (vmem applied))))
  else if 2 ≤ (dSet snap applied).card ∧
      (vmem applied).card / 2 + 3 ≤ (vmem applied).card then
    -- shrink the voter set by two, quorum of the previous voters permitting
    ComputeResult.change (mkTop snap applied applied.members
      (((vmem applied).erase (pick (dSet snap applied))).erase
        (pick ((dSet snap applied).erase (pick (dSet snap applied))))))
  else if cSet snap applied ≠ ∅ then
    -- physically remove a non-voting member that is no longer wanted
    ComputeResult.change (mkTop snap applied
      (applied.members.erase (pick (cSet snap applied))) (vmem applied))
  else if mismatchSet snap applied ≠ ∅ then
    -- address-only refresh
    ComputeResult.change (mkTop snap applied applied.members (vmem applied))
  else ComputeResult.noChange

/-- Iterate the Topology Computer, feeding each emitted topology back in as
the next applied configuration, with the snapshot held fixed. -/
def iterCompute (snap : List Controller) : Nat → Topology → ComputeResult
  | 0, t => computeTopology snap t
  | Nat.succ k, t =>
    match computeTopology snap t with
    | ComputeResult.change t2 => iterCompute snap k t2
    | r => r

/-- Termination measure for convergence: distance of `t` from the ideal
target derived from the snapshot. -/
def stepMeasure (snap : List Controller) (t : Topology) : Nat :=
  (if vmem t = ∅ then 1 else 0)
    + (eligibleIds snap \ t.members).card
    + 3 * ((vmem t \ targetVoters (eligibleIds snap)).card
        + (targetVoters (eligibleIds snap) \ vmem t).card)
    + 2 * (t.members \ (eligibleIds snap ∪ vmem t)).card
    + (if mismatchSet snap t = ∅ then 0 else 1)

/-- Number of member-presence differences between two topologies. -/
def presenceDelta (t1 t2 : Topology) : Nat :=
  ((t1.members \ t2.members) ∪ (t2.members \ t1.members)).card

/-- Number of voting-status differences among members present in both. -/
def voteDelta (t1 t2 : Topology) : Nat :=
  (((vmem t1 \ vmem t2) ∪ (vmem t2 \ vmem t1)) ∩ (t1.members ∩ t2.members)).card

/-- Total count of structural membership changes between two topologies. -/
def structDelta (t1 t2 : Topology) : Nat :=
  presenceDelta t1 t2 + voteDelta t1 t2

/- ===================== Address Publisher ===================== -/

/-- A host:port tuple as published to the hub. -/
structure HostPort where
  host : String
  port : Nat
deriving DecidableEq, Repr

/-- Modelled from the spec: one publisher cycle.  The newly derived host:port
list is compared order-insensitively and value-based (as a set) against the
last published one; Publish fires only when they differ.  Returns the new
last-published state and whether Publish was invoked. -/
def publishStep (prev : Option (Finset HostPort)) (derived : List HostPort) :
    Option (Finset HostPort) × Bool :=
  if some derived.toFinset = prev then (prev, false)
  else (some derived.toFinset, true)

/-- Number of Publish invocations over a sequence of cycles, starting from a
given last-published state. -/
def publishCount (prev : Option (Finset HostPort)) :
    List (List HostPort) → Nat
  | [] => 0
  | d :: rest =>
    if some d.toFinset = prev then publishCount prev rest
    else 1 + publishCount (some d.toFinset) rest

/- ===================== APIAddresser (apiserver/common/addresses.go) ===================== -/

/-- Outcome of `getter.APIHostPorts()`: the per-server host:port lists and an
optional error. -/
structure APIHostPortsOutcome where
  servers : List (List HostPort)
  err : Option String
deriving DecidableEq, Repr

/-- Result shape of `params.StringsResult`. -/
structure StringsResult where
  Result : List String
deriving DecidableEq, Repr

/-- Embeds `apiAddresses` (src/apiserver/common/addresses.go:71-86): for each
server the prioritized address strings are appended in order, skipping empty
strings; an error from APIHostPorts is returned with a nil slice.  The
prioritizer (network.PrioritizeInternalHostPorts) is external to the core and
passed in abstractly. -/
def apiAddresses (prioritize : List HostPort → List String)
    (res : APIHostPortsOutcome) : Option (List String) × Option String :=
  match res.err with
  | some e => (none, some e)
  | none =>
    (some (res.servers.foldl
      (fun acc hostPorts =>
        (prioritize hostPorts).foldl
          (fun acc2 a => if a ≠ "" then acc2 ++ [a] else acc2) acc) []), none)

/-- Embeds `APIAddresser.APIAddresses` (src/apiserver/common/addresses.go:61-69):
wraps `apiAddresses`, returning an empty StringsResult alongside any error. -/
def APIAddresses (prioritize : List HostPort → List String)
    (res : APIHostPortsOutcome) : StringsResult × Option String :=
  match apiAddresses prioritize res with
  | (_, some e) => (⟨[]⟩, some e)
  | (addrs, none) => (⟨addrs.getD []⟩, none)

/- ===================== peergrouper manifold ===================== -/

/-- State serving ports carried by the agent configuration. -/
structure StateServingInfo where
  StatePort : Nat
  APIPort : Nat
deriving DecidableEq, Repr

/-- The agent resource: its current config may carry serving info. -/
structure AgentRes where
  servingInfo : Option StateServingInfo
deriving DecidableEq, Repr

/-- Abstract clock resource. -/
structure ClockRes where
  cid : Nat
deriving DecidableEq, Repr

/-- Abstract hub handle. -/
structure HubRes where
  hid : Nat
deriving DecidableEq, Repr

/-- Abstract state-pool resource handed out by the state tracker. -/
structure StatePoolRes where
  sid : Nat
deriving DecidableEq, Repr

/-- Start errors: the dependency-engine missing-resource error, or any other
construction failure. -/
inductive StartError where
  | missingDependency : StartError
  | other : String → StartError
deriving DecidableEq, Repr

/-- The worker Config assembled by the manifold's start function. -/
structure PGConfig where
  mongoPort : Nat
  apiPort : Nat
  supportsSpaces : Bool
  clock : ClockRes
  hub : HubRes
deriving DecidableEq, Repr

/-- Resources visible to the manifold's start function; `none` models a
missing dependency. -/
structure ManifoldContext where
  agent : Option AgentRes
  clock : Option ClockRes
  statePool : Option StatePoolRes
deriving DecidableEq, Repr

/-- Modelled from the spec: the peergrouper manifold's declared inputs. -/
def manifoldInputs : List String := ["agent", "clock", "state"]

/-- Modelled from the spec: the manifold's start function (the manifold body
is absent from the sources; behavior per spec §6 and manifold_test.go).  Each
declared input is fetched in turn — a missing one aborts with the
missing-dependency error — then the worker Config is assembled with
MongoPort/APIPort taken from the agent's StateServingInfo, SupportsSpaces
from the ControllerSupportsSpaces check, and the configured clock and hub. -/
def manifoldStart (supportsSpacesCheck : StatePoolRes → Except String Bool)
    (hub : HubRes) (ctx : ManifoldContext) : Except StartError PGConfig :=
  match ctx.agent with
  | none => Except.error StartError.missingDependency
  | some ag =>
    match ctx.clock with
    | none => Except.error StartError.missingDependency
    | some ck =>
      match ctx.statePool with
      | none => Except.error StartError.missingDependency
      | some st =>
        match ag.servingInfo with
        | none => Except.error (StartError.other "state serving info missing from agent config")
        | some info =>
          match supportsSpacesCheck st with
          | Except.error e => Except.error (StartError.other e)
          | Except.ok b =>
            Except.ok ⟨info.StatePort, info.APIPort, b, ck, hub⟩

/- ===================== storage Client.Show ===================== -/

/-- One per-entity result of the Storage facade's Show call. -/
structure StorageShowResult where
  error : Option String
  result : String
deriving DecidableEq, Repr

/-- Embeds `Client.Show` (src/unnamed/part_000:32-54) after the facade call:
walks the results once, collecting error strings and successful instances; if
any error string was collected, returns nil instances and the strings joined
by ", ", else the collected instances. -/
def StorageClient.Show (callOutcome : Except String (List StorageShowResult)) :
    Except String (List String) :=
  match callOutcome with
  | Except.error e => Except.error e
  | Except.ok results =>
    let acc := results.foldl
      (fun (p : List String × List String) r =>
        match r.error with
        | some e => (p.1, p.2 ++ [e])
        | none => (p.1 ++ [r.result], p.2)) ([], [])
    if 0 < acc.2.length then Except.error (String.intercalate ", " acc.2)
    else Except.ok acc.1

/- ===================== jujuc server Main ===================== -/

/-- Embeds `Request` (src/cmd/jujuc/server/server.go:26-30); `args` is an
Option to distinguish a nil Args slice from an empty one. -/
structure JujucRequest where
  contextId : String
  dir : String
  args : Option (List String)
deriving DecidableEq, Repr

/-- Embeds `Response` (src/cmd/jujuc/server/server.go:33-37). -/
structure JujucResponse where
  code : Int
  stdout : String
  stderr : String
deriving DecidableEq, Repr

/-- Embeds `badReqErr` (src/cmd/jujuc/server/server.go:65-67). -/
def badReqErr (s : String) : String := "bad request: " ++ s

/-- Embeds `Jujuc.Main` (src/cmd/jujuc/server/server.go:70-88).  `getCmds`
abstracts the CmdsGetter wired into the Jujuc value, `isAbs` abstracts
filepath.IsAbs, and `runMain` abstracts cmd.Main running the assembled
super-command, yielding (code, stdout, stderr).  On a bad request the
response is returned untouched together with the error. -/
def Jujuc.Main {γ : Type} (getCmds : String → Except String γ)
    (isAbs : String → Bool)
    (runMain : γ → String → List String → Int × String × String)
    (req : JujucRequest) (resp : JujucResponse) : JujucResponse × Option String :=
  if req.args = none ∨ (req.args.getD []).length < 1 then
    (resp, some (badReqErr "Args is too short"))
  else if ¬ isAbs req.dir then
    (resp, some (badReqErr "Dir is not absolute"))
  else
    match getCmds req.contextId with
    | Except.error e => (resp, some (badReqErr e))
    | Except.ok cmds =>
      let out := runMain cmds req.dir (req.args.getD [])
      (⟨out.1, out.2.1, out.2.2⟩, none)

/- ===================== mgo/txn queue guard (pr463 patch) ===================== -/

/-- Embeds `RunnerOptions` (patch lines 69-78). -/
structure RunnerOptions where
  MaxTxnQueueLength : Int
deriving DecidableEq, Repr

/-- Embeds `defaultMaxTxnQueueLength` (patch line 51). -/
def defaultMaxTxnQueueLength : Int := 1000

/-- Embeds `DefaultRunnerOptions` (patch lines 85-91). -/
def DefaultRunnerOptions : RunnerOptions := ⟨defaultMaxTxnQueueLength⟩

/-- A transaction runner: txns/stash collection names and options. -/
structure TxnRunner where
  tcName : String
  scName : String
  opts : RunnerOptions
deriving DecidableEq, Repr

/-- Embeds `NewRunner` (patch lines 59-67). -/
def NewRunner (tcName : String) : TxnRunner :=
  ⟨tcName, tcName ++ ".stash", DefaultRunnerOptions⟩

/-- Embeds `Runner.SetOptions` (patch lines 81-83). -/
def SetOptions (r : TxnRunner) (opts : RunnerOptions) : TxnRunner :=
  { r with opts := opts }

/-- A document as seen by the flusher: identity, collection, txn-queue. -/
structure TxnDoc where
  docId : String
  coll : String
  txnQueue : List String
deriving DecidableEq, Repr

/-- The error reported when a txn-queue exceeds the limit (patch lines 17-18). -/
def tooManyMsg (d : TxnDoc) (n : Nat) : String :=
  "txn-queue for " ++ d.docId ++ " in \"" ++ d.coll ++
    "\" has too many transactions (" ++ toString n ++ ")"

/-- Modelled from the spec: the flusher's per-document apply step around the
patch hunk (patch lines 7-21; the surrounding flusher is absent from the
sources).  Applying pushes the transaction token onto the document's
txn-queue; if the option is positive and the resulting queue length exceeds
it, the transaction is aborted — the token is pulled back so the queue does
not grow — and the too-many-transactions error is returned. -/
def flusherApply (opts : RunnerOptions) (d : TxnDoc) (token : String) :
    TxnDoc × Option String :=
  let q := d.txnQueue ++ [token]
  if 0 < opts.MaxTxnQueueLength ∧ opts.MaxTxnQueueLength < (q.length : Int) then
    (d, some (tooManyMsg d q.length))
  else ({ d with txnQueue := q }, none)

/- ===================== Concrete instances for witnesses ===================== -/

/-- The empty applied configuration (process bootstrap). -/
def topoEmpty : Topology := ⟨∅, ∅, []⟩

/-- A snapshot of three healthy controllers that want the controller role. -/
def snapThree : List Controller :=
  [⟨1, some "10.0.0.1", true, true⟩, ⟨2, some "10.0.0.2", true, true⟩,
   ⟨3, some "10.0.0.3", true, true⟩]

/-- A snapshot where controller 3 no longer wants the role and controller 4
is a fresh eligible replacement. -/
def snapSwap : List Controller :=
  [⟨1, some "10.0.0.1", true, true⟩, ⟨2, some "10.0.0.2", true, true⟩,
   ⟨3, some "10.0.0.3", false, true⟩, ⟨4, some "10.0.0.4", true, true⟩]

/-- Applied configuration with members 1-4, voters 1-3, matching addresses. -/
def topoSwap : Topology :=
  ⟨{1, 2, 3, 4}, {1, 2, 3},
   [(1, "10.0.0.1"), (2, "10.0.0.2"), (3, "10.0.0.3"), (4, "10.0.0.4")]⟩

/-- A single-controller snapshot. -/
def snapOne : List Controller := [⟨1, some "10.0.0.1", true, true⟩]

/-- Expected bootstrap output for `snapThree` from the empty configuration. -/
def tBoot3 : Topology :=
  ⟨{1, 2, 3}, {1, 2, 3},
   [(1, "10.0.0.1"), (2, "10.0.0.2"), (3, "10.0.0.3")]⟩

/-- Expected swap output for `snapSwap` from `topoSwap`. -/
def tSwapOut : Topology :=
  ⟨{1, 2, 3, 4}, {1, 2, 4},
   [(1, "10.0.0.1"), (2, "10.0.0.2"), (3, "10.0.0.3"), (4, "10.0.0.4")]⟩

/-- Expected bootstrap output for `snapOne` from the empty configuration. -/
def tOne : Topology := ⟨{1}, {1}, [(1, "10.0.0.1")]⟩

/-- Sample host:port values. -/
def hpA : HostPort := ⟨"10.0.0.1", 17070⟩

/-- A second sample host:port value. -/
def hpB : HostPort := ⟨"10.0.0.2", 17070⟩

/-- A sample prioritizer: every host string, in order. -/
def prioHost : List HostPort → List String := fun hps => hps.map (fun hp => hp.host)

/-- A successful APIHostPorts outcome with two single-address servers. -/
def resOk6 : APIHostPortsOutcome := ⟨[[hpA], [hpB]], none⟩

/-- A failed APIHostPorts outcome. -/
def resErr6 : APIHostPortsOutcome := ⟨[], some "boom"⟩

/-- Sample hub for the manifold. -/
def hub7 : HubRes := ⟨5⟩

/-- Sample ControllerSupportsSpaces check that reports true. -/
def check7 : StatePoolRes → Except String Bool := fun _ => Except.ok true

/-- A manifold context with every resource available. -/
def ctx7 : ManifoldContext := ⟨some ⟨some ⟨1234, 5678⟩⟩, some ⟨7⟩, some ⟨9⟩⟩

/-- A manifold context with the agent resource missing. -/
def ctx7Missing : ManifoldContext := ⟨none, some ⟨7⟩, some ⟨9⟩⟩

/-- Show results where two entities report errors. -/
def resultsMixed : List StorageShowResult :=
  [⟨none, "inst-0"⟩, ⟨some "boom", ""⟩, ⟨some "bang", ""⟩]

/-- Show results where every entity succeeds. -/
def resultsClean : List StorageShowResult :=
  [⟨none, "inst-0"⟩, ⟨none, "inst-1"⟩]

/-- Sample commands getter recognizing a single context id. -/
def getCmds9 : String → Except String Nat :=
  fun c => if c = "ctx-0" then Except.ok 1 else Except.error "context not found"

/-- Unix-style absolute path test. -/
def isAbs9 : String → Bool := fun s => s.data.head? == some (Char.ofNat 47)

/-- Sample command run result. -/
def runMain9 : Nat → String → List String → Int × String × String :=
  fun _ _ _ => (0, "out", "")

/-- A request whose Args slice is empty. -/
def reqShort9 : JujucRequest := ⟨"ctx-0", "/var/lib", some []⟩

/-- A well-formed request. -/
def reqGood9 : JujucRequest := ⟨"ctx-0", "/var/lib", some ["remote-cmd"]⟩

/-- A pre-existing response value. -/
def resp9 : JujucResponse := ⟨42, "old", "old"⟩

/-- Runner options with a low queue limit. -/
def opts10 : RunnerOptions := ⟨2⟩

/-- A document whose txn-queue already holds two transactions. -/
def doc10 : TxnDoc := ⟨"0", "accounts", ["t-1", "t-2"]⟩

/- ===================== Basic lemmas ===================== -/

lemma pick_mem {s : Finset Nat} (h : s ≠ ∅) : pick s ∈ s := by
  obtain ⟨a, ha⟩ := Finset.nonempty_iff_ne_empty.mpr h
  obtain ⟨b, hb⟩ := Finset.min_of_nonempty ⟨a, ha⟩
  have : pick s = b := by
    unfold pick
    rw [hb]
    rfl
  rw [this]
  exact Finset.mem_of_min hb

lemma maxId_mem {s : Finset Nat} (h : s ≠ ∅) : maxId s ∈ s := by
  obtain ⟨a, ha⟩ := Finset.nonempty_iff_ne_empty.mpr h
  obtain ⟨b, hb⟩ := Finset.max_of_nonempty ⟨a, ha⟩
  have : maxId s = b := by
    unfold maxId
    rw [hb]
    rfl
  rw [this]
  exact Finset.mem_of_max hb

lemma le_maxId {s : Finset Nat} {a : Nat} (h : a ∈ s) : a ≤ maxId s := by
  have h1 : (a : WithBot Nat) ≤ s.max := Finset.le_max h
  obtain ⟨b, hb⟩ := Finset.max_of_nonempty ⟨a, h⟩
  have : maxId s = b := by
    unfold maxId
    rw [hb]
    rfl
  rw [this]
  rw [hb] at h1
  exact WithBot.coe_le_coe.mp h1

lemma vmem_subset (t : Topology) : vmem t ⊆ t.members :=
  Finset.inter_subset_right

lemma targetVoters_subset (E : Finset Nat) : targetVoters E ⊆ E := by
  unfold targetVoters
  split
  · exact Finset.Subset.refl E
  · exact Finset.erase_subset _ E

lemma targetVoters_card_odd {E : Finset Nat} (h : E ≠ ∅) :
    (targetVoters E).card % 2 = 1 := by
  unfold targetVoters
  split
  · assumption
  · have hmem : maxId E ∈ E := maxId_mem h
    rw [Finset.card_erase_of_mem hmem]
    have hpos : 0 < E.card := Finset.card_pos.mpr (Finset.nonempty_iff_ne_empty.mpr h)
    omega

lemma targetVoters_ne_empty {E : Finset Nat} (h : E ≠ ∅) : targetVoters E ≠ ∅ := by
  intro hc
  have := targetVoters_card_odd h
  rw [hc] at this
  simp at this

lemma find?_map_pair (l : List Nat) (f : Nat → String) (i : Nat) (h : i ∈ l) :
    (l.map (fun j => (j, f j))).find? (fun p => p.1 == i) = some (i, f i) := by
  induction l with
  | nil => cases h
  | cons a as ih =>
    by_cases hai : a = i
    · subst hai
      simp [List.find?]
    · rcases List.mem_cons.mp h with h1 | h2
      · exact absurd h1.symm hai
      · simp only [List.map_cons, List.find?]
        have : ((a, f a).1 == i) = false := by
          simp [hai]
        rw [this]
        exact ih h2

lemma addrOf_mkTop {snap : List Controller} {applied : Topology}
    {M V : Finset Nat} {i : Nat} (h : i ∈ M) :
    addrOf (mkTop snap applied M V) i = canonAddr snap applied i := by
  unfold mkTop mkAddrs addrOf
  have hrange : i ∈ List.range (maxId M + 1) :=
    List.mem_range.mpr (Nat.lt_succ_of_le (le_maxId h))
  have hfilter : i ∈ (List.range (maxId M + 1)).filter (fun j => j ∈ M) := by
    rw [List.mem_filter]
    exact ⟨hrange, by simp [h]⟩
  rw [find?_map_pair _ _ _ hfilter]
  rfl

lemma mismatchSet_mkTop (snap : List Controller) (applied : Topology)
    (M V : Finset Nat) : mismatchSet snap (mkTop snap applied M V) = ∅ := by
  unfold mismatchSet
  rw [Finset.filter_eq_empty_iff]
  intro i hi
  have hmem : i ∈ M := hi
  rw [addrOf_mkTop hmem]
  unfold canonAddr
  cases hs : snapAddr snap i with
  | none => simp [hs, addrOf_mkTop hmem, canonAddr]
  | some a => simp [hs, addrOf_mkTop hmem, canonAddr]

lemma vmem_mkTop {snap : List Controller} {applied : Topology}
    {M V : Finset Nat} (h : V ⊆ M) : vmem (mkTop snap applied M V) = V := by
  unfold vmem mkTop
  exact Finset.inter_eq_left.mpr h

lemma members_mkTop (snap : List Controller) (applied : Topology)
    (M V : Finset Nat) : (mkTop snap applied M V).members = M := rfl

/- ===================== Branch inversion for the Topology Computer ===================== -/

lemma computeTopology_change_cases {snap : List Controller} {applied t : Topology}
    (h : computeTopology snap applied = ComputeResult.change t) :
    (eligibleIds snap ≠ ∅ ∧ vmem applied = ∅ ∧
       t = mkTop snap applied (eligibleIds snap) (targetVoters (eligibleIds snap)))
  ∨ (eligibleIds snap ≠ ∅ ∧ vmem applied ≠ ∅ ∧ (vmem applied).card % 2 = 0 ∧
       aSet snap applied ≠ ∅ ∧
       t = mkTop snap applied (insert (pick (aSet snap applied)) applied.members)
             (insert (pick (aSet snap applied)) (vmem applied)))
  ∨ (eligibleIds snap ≠ ∅ ∧ vmem applied ≠ ∅ ∧ (vmem applied).card % 2 = 0 ∧
       aSet snap applied = ∅ ∧ 4 ≤ (vmem applied).card ∧
       t = mkTop snap applied applied.members
             ((vmem applied).erase (pick (dSet snap applied))))
  ∨ (eligibleIds snap ≠ ∅ ∧ vmem applied ≠ ∅ ∧ (vmem applied).card % 2 = 1 ∧
       eligibleIds snap \ applied.members ≠ ∅ ∧
       t = mkTop snap applied
             (insert (pick (eligibleIds snap \ applied.members)) applied.members)
             (vmem applied))
  ∨ (eligibleIds snap ≠ ∅ ∧ vmem applied ≠ ∅ ∧ (vmem applied).card % 2 = 1 ∧
       eligibleIds snap \ applied.members = ∅ ∧ dSet snap applied ≠ ∅ ∧
       aSet snap applied ≠ ∅ ∧ 3 ≤ (vmem applied).card ∧
       t = mkTop snap applied applied.members
             (insert (pick (aSet snap applied))
               ((vmem applied).erase (pick (dSet snap applied)))))
  ∨ (eligibleIds snap ≠ ∅ ∧ vmem applied ≠ ∅ ∧ (vmem applied).card % 2 = 1 ∧
       eligibleIds snap \ applied.members = ∅ ∧ 2 ≤ (aSet snap applied).card ∧
       t = mkTop snap applied applied.members
             (insert (pick ((aSet snap applied).erase (pick (aSet snap applied))))
               (insert (pick (aSet snap applied)) (vmem applied))))
  ∨ (eligibleIds snap ≠ ∅ ∧ vmem applied ≠ ∅ ∧ (vmem applied).card % 2 = 1 ∧
       eligibleIds snap \ applied.members = ∅ ∧ 2 ≤ (dSet snap applied).card ∧
       (vmem applied).card / 2 + 3 ≤ (vmem applied).card ∧
       t = mkTop snap applied applied.members
             (((vmem applied).erase (pick (dSet snap applied))).erase
               (pick ((dSet snap applied).erase (pick (dSet snap applied))))))
  ∨ (eligibleIds snap ≠ ∅ ∧ vmem applied ≠ ∅ ∧ (vmem applied).card % 2 = 1 ∧
       eligibleIds snap \ applied.members = ∅ ∧ cSet snap applied ≠ ∅ ∧
       t = mkTop snap applied (applied.members.erase (pick (cSet snap applied)))
             (vmem applied))
  ∨ (eligibleIds snap ≠ ∅ ∧ vmem applied ≠ ∅ ∧ (vmem applied).card % 2 = 1 ∧
       eligibleIds snap \ applied.members = ∅ ∧ mismatchSet snap applied ≠ ∅ ∧
       t = mkTop snap applied applied.members (vmem applied)) := by
  unfold computeTopology at h
  by_cases h1 : eligibleIds snap = ∅
  · rw [if_pos h1] at h
    cases h
  rw [if_neg h1] at h
  by_cases h2 : vmem applied = ∅
  · rw [if_pos h2] at h
    injection h with h'
    exact Or.inl ⟨h1, h2, h'.symm⟩
  rw [if_neg h2] at h
  by_cases h3 : (vmem applied).card % 2 = 0
  · rw [if_pos h3] at h
    by_cases h4 : aSet snap applied = ∅
    · rw [if_pos h4] at h
      by_cases h5 : 4 ≤ (vmem applied).card
      · rw [if_pos h5] at h
        injection h with h'
        exact Or.inr (Or.inr (Or.inl ⟨h1, h2, h3, h4, h5, h'.symm⟩))
      · rw [if_neg h5] at h
        cases h
    · rw [if_neg h4] at h
      injection h with h'
      exact Or.inr (Or.inl ⟨h1, h2, h3, h4, h'.symm⟩)
  rw [if_neg h3] at h
  have h3' : (vmem applied).card % 2 = 1 := Nat.mod_two_ne_zero.mp h3
  by_cases h4 : eligibleIds snap \ applied.members ≠ ∅
  · rw [if_pos h4] at h
    injection h with h'
    exact Or.inr (Or.inr (Or.inr (Or.inl ⟨h1, h2, h3', h4, h'.symm⟩)))
  rw [if_neg h4] at h
  have h4' : eligibleIds snap \ applied.members = ∅ := not_not.mp h4
  by_cases h5 : dSet snap applied ≠ ∅ ∧ aSet snap applied ≠ ∅ ∧ 3 ≤ (vmem applied).card
  · rw [if_pos h5] at h
    injection h with h'
    exact Or.inr (Or.inr (Or.inr (Or.inr (Or.inl
      ⟨h1, h2, h3', h4', h5.1, h5.2.1, h5.2.2, h'.symm⟩))))
  rw [if_neg h5] at h
  by_cases h6 : 2 ≤ (aSet snap applied).card
  · rw [if_pos h6] at h
    injection h with h'
    exact Or.inr (Or.inr (Or.inr (Or.inr (Or.inr (Or.inl
      ⟨h1, h2, h3', h4', h6, h'.symm⟩)))))
  rw [if_neg h6] at h
  by_cases h7 : 2 ≤ (dSet snap applied).card ∧
      (vmem applied).card / 2 + 3 ≤ (vmem applied).card
  · rw [if_pos h7] at h
    injection h with h'
    exact Or.inr (Or.inr (Or.inr (Or.inr (Or.inr (Or.inr (Or.inl
      ⟨h1, h2, h3', h4', h7.1, h7.2, h'.symm⟩))))))
  rw [if_neg h7] at h
  by_cases h8 : cSet snap applied ≠ ∅
  · rw [if_pos h8] at h
    injection h with h'
    exact Or.inr (Or.inr (Or.inr (Or.inr (Or.inr (Or.inr (Or.inr (Or.inl
      ⟨h1, h2, h3', h4', h8, h'.symm⟩)))))))
  rw [if_neg h8] at h
  by_cases h9 : mismatchSet snap applied ≠ ∅
  · rw [if_pos h9] at h
    injection h with h'
    exact Or.inr (Or.inr (Or.inr (Or.inr (Or.inr (Or.inr (Or.inr (Or.inr
      ⟨h1, h2, h3', h4', h9, h'.symm⟩)))))))
  · rw [if_neg h9] at h
    cases h

/- ===================== Derived branch facts ===================== -/

lemma subset_of_sdiff_empty {s u : Finset Nat} (h : s \ u = ∅) : s ⊆ u :=
  Finset.sdiff_eq_empty_iff_subset.mp h

lemma dSet_ne_empty_of_aSet_empty {snap : List Controller} {applied : Topology}
    (h1 : eligibleIds snap ≠ ∅) (h3 : (vmem applied).card % 2 = 0)
    (h4 : aSet snap applied = ∅) : dSet snap applied ≠ ∅ := by
  intro hd
  have hTV : targetVoters (eligibleIds snap) ⊆ vmem applied := subset_of_sdiff_empty h4
  have hVT : vmem applied ⊆ targetVoters (eligibleIds snap) := subset_of_sdiff_empty hd
  have heq : vmem applied = targetVoters (eligibleIds snap) :=
    Finset.Subset.antisymm hVT hTV
  have hodd := targetVoters_card_odd h1
  rw [← heq] at hodd
  omega

lemma aSet_subset {snap : List Controller} {applied : Topology} :
    aSet snap applied ⊆ eligibleIds snap :=
  fun _ hx => targetVoters_subset _ (Finset.mem_sdiff.mp hx).1

lemma dSet_subset {snap : List Controller} {applied : Topology} :
    dSet snap applied ⊆ vmem applied :=
  Finset.sdiff_subset

/-- Claim C1: every Topology emitted by the Topology Computer has an odd,
at-least-one count of voting members, for any snapshot and applied
configuration. -/
theorem computeTopology_odd_voters (snap : List Controller) (applied t : Topology)
    (h : computeTopology snap applied = ComputeResult.change t) :
    Odd (vmem t).card ∧ 1 ≤ (vmem t).card := by
  have hVM : vmem applied ⊆ applied.members := vmem_subset applied
  rcases computeTopology_change_cases h with
    ⟨h1, h2, ht⟩ | ⟨h1, h2, h3, h4, ht⟩ | ⟨h1, h2, h3, h4, h5, ht⟩ |
    ⟨h1, h2, h3, h4, ht⟩ | ⟨h1, h2, h3, h4, h5, h6, h7, ht⟩ |
    ⟨h1, h2, h3, h4, h5, ht⟩ | ⟨h1, h2, h3, h4, h5, h6, ht⟩ |
    ⟨h1, h2, h3, h4, h5, ht⟩ | ⟨h1, h2, h3, h4, h5, ht⟩
  -- boot
  · rw [ht, vmem_mkTop (targetVoters_subset _)]
    have hodd := targetVoters_card_odd h1
    have hpos : 0 < (targetVoters (eligibleIds snap)).card :=
      Finset.card_pos.mpr (Finset.nonempty_iff_ne_empty.mpr (targetVoters_ne_empty h1))
    exact ⟨Nat.odd_iff.mpr hodd, hpos⟩
  -- parity repair by promotion
  · have ha : pick (aSet snap applied) ∈ aSet snap applied := pick_mem h4
    have hanotV : pick (aSet snap applied) ∉ vmem applied :=
      (Finset.mem_sdiff.mp ha).2
    have hsub : insert (pick (aSet snap applied)) (vmem applied) ⊆
        insert (pick (aSet snap applied)) applied.members :=
      Finset.insert_subset_insert _ hVM
    rw [ht, vmem_mkTop hsub, Finset.card_insert_of_not_mem hanotV]
    have hpos : 0 < (vmem applied).card :=
      Finset.card_pos.mpr (Finset.nonempty_iff_ne_empty.mpr h2)
    exact ⟨Nat.odd_iff.mpr (by omega), by omega⟩
  -- parity repair by demotion
  · have hD : dSet snap applied ≠ ∅ := dSet_ne_empty_of_aSet_empty h1 h3 h4
    have hd : pick (dSet snap applied) ∈ vmem applied := dSet_subset (pick_mem hD)
    have hsub : (vmem applied).erase (pick (dSet snap applied)) ⊆ applied.members :=
      Finset.Subset.trans (Finset.erase_subset _ _) hVM
    rw [ht, vmem_mkTop hsub, Finset.card_erase_of_mem hd]
    exact ⟨Nat.odd_iff.mpr (by omega), by omega⟩
  -- add non-voting member
  · have hsub : vmem applied ⊆
        insert (pick (eligibleIds snap \ applied.members)) applied.members :=
      Finset.Subset.trans hVM (Finset.subset_insert _ _)
    rw [ht, vmem_mkTop hsub]
    have hpos : 0 < (vmem applied).card :=
      Finset.card_pos.mpr (Finset.nonempty_iff_ne_empty.mpr h2)
    exact ⟨Nat.odd_iff.mpr h3, by omega⟩
  -- swap
  · have ha : pick (aSet snap applied) ∈ aSet snap applied := pick_mem h6
    have hanotV : pick (aSet snap applied) ∉ vmem applied :=
      (Finset.mem_sdiff.mp ha).2
    have hd : pick (dSet snap applied) ∈ vmem applied := dSet_subset (pick_mem h5)
    have haM : pick (aSet snap applied) ∈ applied.members :=
      subset_of_sdiff_empty h4 (aSet_subset ha)
    have hsub : insert (pick (aSet snap applied))
        ((vmem applied).erase (pick (dSet snap applied))) ⊆ applied.members :=
      Finset.insert_subset haM
        (Finset.Subset.trans (Finset.erase_subset _ _) hVM)
    have hanot : pick (aSet snap applied) ∉
        (vmem applied).erase (pick (dSet snap applied)) := by
      intro hc
      exact hanotV (Finset.mem_of_mem_erase hc)
    rw [ht, vmem_mkTop hsub, Finset.card_insert_of_not_mem hanot,
      Finset.card_erase_of_mem hd]
    exact ⟨Nat.odd_iff.mpr (by omega), by omega⟩
  -- promote two
  · have hAne : aSet snap applied ≠ ∅ :=
      Finset.nonempty_iff_ne_empty.mp (Finset.card_pos.mp (by omega))
    have ha1 : pick (aSet snap applied) ∈ aSet snap applied := pick_mem hAne
    have hA2ne : (aSet snap applied).erase (pick (aSet snap applied)) ≠ ∅ := by
      have : 0 < ((aSet snap applied).erase (pick (aSet snap applied))).card := by
        rw [Finset.card_erase_of_mem ha1]
        omega
      exact Finset.nonempty_iff_ne_empty.mp (Finset.card_pos.mp this)
    have ha2e : pick ((aSet snap applied).erase (pick (aSet snap applied))) ∈
        (aSet snap applied).erase (pick (aSet snap applied)) := pick_mem hA2ne
    have ha2 : pick ((aSet snap applied).erase (pick (aSet snap applied))) ∈
        aSet snap applied := Finset.mem_of_mem_erase ha2e
    have hne12 : pick ((aSet snap applied).erase (pick (aSet snap applied))) ≠
        pick (aSet snap applied) := Finset.ne_of_mem_erase ha2e
    have ha1notV : pick (aSet snap applied) ∉ vmem applied :=
      (Finset.mem_sdiff.mp ha1).2
    have ha2notV : pick ((aSet snap applied).erase (pick (aSet snap applied))) ∉
        vmem applied := (Finset.mem_sdiff.mp ha2).2
    have hEM : eligibleIds snap ⊆ applied.members := subset_of_sdiff_empty h4
    have hsub : insert (pick ((aSet snap applied).erase (pick (aSet snap applied))))
        (insert (pick (aSet snap applied)) (vmem applied)) ⊆ applied.members :=
      Finset.insert_subset (hEM (aSet_subset ha2))
        (Finset.insert_subset (hEM (aSet_subset ha1)) hVM)
    have ha2notI : pick ((aSet snap applied).erase (pick (aSet snap applied))) ∉
        insert (pick (aSet snap applied)) (vmem applied) := by
      rw [Finset.mem_insert]
      push_neg
      exact ⟨hne12, ha2notV⟩
    rw [ht, vmem_mkTop hsub, Finset.card_insert_of_not_mem ha2notI,
      Finset.card_insert_of_not_mem ha1notV]
    exact ⟨Nat.odd_iff.mpr (by omega), by omega⟩
  -- demote two
  · have hDne : dSet snap applied ≠ ∅ :=
      Finset.nonempty_iff_ne_empty.mp (Finset.card_pos.mp (by omega))
    have hd1 : pick (dSet snap applied) ∈ dSet snap applied := pick_mem hDne
    have hD2ne : (dSet snap applied).erase (pick (dSet snap applied)) ≠ ∅ := by
      have : 0 < ((dSet snap applied).erase (pick (dSet snap applied))).card := by
        rw [Finset.card_erase_of_mem hd1]
        omega
      exact Finset.nonempty_iff_ne_empty.mp (Finset.card_pos.mp this)
    have hd2e : pick ((dSet snap applied).erase (pick (dSet snap applied))) ∈
        (dSet snap applied).erase (pick (dSet snap applied)) := pick_mem hD2ne
    have hd2 : pick ((dSet snap applied).erase (pick (dSet snap applied))) ∈
        vmem applied := dSet_subset (Finset.mem_of_mem_erase hd2e)
    have hne12 : pick ((dSet snap applied).erase (pick (dSet snap applied))) ≠
        pick (dSet snap applied) := Finset.ne_of_mem_erase hd2e
    have hd1V : pick (dSet snap applied) ∈ vmem applied := dSet_subset hd1
    have hd2E : pick ((dSet snap applied).erase (pick (dSet snap applied))) ∈
        (vmem applied).erase (pick (dSet snap applied)) :=
      Finset.mem_erase.mpr ⟨hne12, hd2⟩
    have hsub : ((vmem applied).erase (pick (dSet snap applied))).erase
        (pick ((dSet snap applied).erase (pick (dSet snap applied)))) ⊆
        applied.members :=
      Finset.Subset.trans (Finset.erase_subset _ _)
        (Finset.Subset.trans (Finset.erase_subset _ _) hVM)
    rw [ht, vmem_mkTop hsub, Finset.card_erase_of_mem hd2E,
      Finset.card_erase_of_mem hd1V]
    exact ⟨Nat.odd_iff.mpr (by omega), by omega⟩
  -- remove unwanted non-voter
  · have hm : pick (cSet snap applied) ∈ cSet snap applied := pick_mem h5
    have hmnotV : pick (cSet snap applied) ∉ vmem applied := by
      have := (Finset.mem_sdiff.mp hm).2
      intro hc
      exact this (Finset.mem_union_right _ hc)
    have hsub : vmem applied ⊆ applied.members.erase (pick (cSet snap applied)) :=
      (Finset.subset_erase).mpr ⟨hVM, hmnotV⟩
    rw [ht, vmem_mkTop hsub]
    have hpos : 0 < (vmem applied).card :=
      Finset.card_pos.mpr (Finset.nonempty_iff_ne_empty.mpr h2)
    exact ⟨Nat.odd_iff.mpr h3, by omega⟩
  -- address-only refresh
  · rw [ht, vmem_mkTop hVM]
    have hpos : 0 < (vmem applied).card :=
      Finset.card_pos.mpr (Finset.nonempty_iff_ne_empty.mpr h2)
    exact ⟨Nat.odd_iff.mpr h3, by omega⟩

/-- Claim C2 (amended): whenever the applied configuration has at least one
voting member, the voters retained from it in the emitted topology number at
least the majority ⌈(n+1)/2⌉ of its n voters. -/
theorem computeTopology_quorum_retained (snap : List Controller)
    (applied t : Topology) (h : computeTopology snap applied = ComputeResult.change t)
    (hne : vmem applied ≠ ∅) :
    majority (vmem applied).card ≤ (vmem applied ∩ vmem t).card := by
  have hVM : vmem applied ⊆ applied.members := vmem_subset applied
  have hpos : 0 < (vmem applied).card :=
    Finset.card_pos.mpr (Finset.nonempty_iff_ne_empty.mpr hne)
  unfold majority
  rcases computeTopology_change_cases h with
    ⟨h1, h2, ht⟩ | ⟨h1, h2, h3, h4, ht⟩ | ⟨h1, h2, h3, h4, h5, ht⟩ |
    ⟨h1, h2, h3, h4, ht⟩ | ⟨h1, h2, h3, h4, h5, h6, h7, ht⟩ |
    ⟨h1, h2, h3, h4, h5, ht⟩ | ⟨h1, h2, h3, h4, h5, h6, ht⟩ |
    ⟨h1, h2, h3, h4, h5, ht⟩ | ⟨h1, h2, h3, h4, h5, ht⟩
  -- boot (excluded by hne)
  · exact absurd h2 hne
  -- parity repair by promotion
  · have hsub : insert (pick (aSet snap applied)) (vmem applied) ⊆
        insert (pick (aSet snap applied)) applied.members :=
      Finset.insert_subset_insert _ hVM
    rw [ht, vmem_mkTop hsub,
      Finset.inter_eq_left.mpr (Finset.subset_insert _ _)]
    omega
  -- parity repair by demotion
  · have hD : dSet snap applied ≠ ∅ := dSet_ne_empty_of_aSet_empty h1 h3 h4
    have hd : pick (dSet snap applied) ∈ vmem applied := dSet_subset (pick_mem hD)
    have hsub : (vmem applied).erase (pick (dSet snap applied)) ⊆ applied.members :=
      Finset.Subset.trans (Finset.erase_subset _ _) hVM
    rw [ht, vmem_mkTop hsub,
      Finset.inter_eq_right.mpr (Finset.erase_subset _ _),
      Finset.card_erase_of_mem hd]
    omega
  -- add non-voting member
  · have hsub : vmem applied ⊆
        insert (pick (eligibleIds snap \ applied.members)) applied.members :=
      Finset.Subset.trans hVM (Finset.subset_insert _ _)
    rw [ht, vmem_mkTop hsub, Finset.inter_self]
    omega
  -- swap
  · have hd : pick (dSet snap applied) ∈ vmem applied := dSet_subset (pick_mem h5)
    have haM : pick (aSet snap applied) ∈ applied.members :=
      subset_of_sdiff_empty h4 (aSet_subset (pick_mem h6))
    have hsub : insert (pick (aSet snap applied))
        ((vmem applied).erase (pick (dSet snap applied))) ⊆ applied.members :=
      Finset.insert_subset haM
        (Finset.Subset.trans (Finset.erase_subset _ _) hVM)
    rw [ht, vmem_mkTop hsub]
    have hretained : (vmem applied).erase (pick (dSet snap applied)) ⊆
        vmem applied ∩ insert (pick (aSet snap applied))
          ((vmem applied).erase (pick (dSet snap applied))) :=
      Finset.subset_inter (Finset.erase_subset _ _) (Finset.subset_insert _ _)
    have hcard := Finset.card_le_card hretained
    rw [Finset.card_erase_of_mem hd] at hcard
    omega
  -- promote two
  · have hEM : eligibleIds snap ⊆ applied.members := subset_of_sdiff_empty h4
    have hAne : aSet snap applied ≠ ∅ :=
      Finset.nonempty_iff_ne_empty.mp (Finset.card_pos.mp (by omega))
    have hA2ne : (aSet snap applied).erase (pick (aSet snap applied)) ≠ ∅ := by
      have : 0 < ((aSet snap applied).erase (pick (aSet snap applied))).card := by
        rw [Finset.card_erase_of_mem (pick_mem hAne)]
        omega
      exact Finset.nonempty_iff_ne_empty.mp (Finset.card_pos.mp this)
    have hsub : insert (pick ((aSet snap applied).erase (pick (aSet snap applied))))
        (insert (pick (aSet snap applied)) (vmem applied)) ⊆ applied.members :=
      Finset.insert_subset
        (hEM (aSet_subset (Finset.mem_of_mem_erase (pick_mem hA2ne))))
        (Finset.insert_subset (hEM (aSet_subset (pick_mem hAne))) hVM)
    rw [ht, vmem_mkTop hsub,
      Finset.inter_eq_left.mpr
        (Finset.Subset.trans (Finset.subset_insert _ _) (Finset.subset_insert _ _))]
    omega
  -- demote two
  · have hsub : ((vmem applied).erase (pick (dSet snap applied))).erase
        (pick ((dSet snap applied).erase (pick (dSet snap applied)))) ⊆
        applied.members :=
      Finset.Subset.trans (Finset.erase_subset _ _)
        (Finset.Subset.trans (Finset.erase_subset _ _) hVM)
    have hDne : dSet snap applied ≠ ∅ :=
      Finset.nonempty_iff_ne_empty.mp (Finset.card_pos.mp (by omega))
    have hd1 : pick (dSet snap applied) ∈ dSet snap applied := pick_mem hDne
    have hD2ne : (dSet snap applied).erase (pick (dSet snap applied)) ≠ ∅ := by
      have : 0 < ((dSet snap applied).erase (pick (dSet snap applied))).card := by
        rw [Finset.card_erase_of_mem hd1]
        omega
      exact Finset.nonempty_iff_ne_empty.mp (Finset.card_pos.mp this)
    have hd2e : pick ((dSet snap applied).erase (pick (dSet snap applied))) ∈
        (dSet snap applied).erase (pick (dSet snap applied)) := pick_mem hD2ne
    have hd2E : pick ((dSet snap applied).erase (pick (dSet snap applied))) ∈
        (vmem applied).erase (pick (dSet snap applied)) :=
      Finset.mem_erase.mpr
        ⟨Finset.ne_of_mem_erase hd2e, dSet_subset (Finset.mem_of_mem_erase hd2e)⟩
    rw [ht, vmem_mkTop hsub,
      Finset.inter_eq_right.mpr
        (Finset.Subset.trans (Finset.erase_subset _ _) (Finset.erase_subset _ _)),
      Finset.card_erase_of_mem hd2E,
      Finset.card_erase_of_mem (dSet_subset hd1)]
    omega
  -- remove unwanted non-voter
  · have hmnotV : pick (cSet snap applied) ∉ vmem applied := by
      have := (Finset.mem_sdiff.mp (pick_mem h5)).2
      intro hc
      exact this (Finset.mem_union_right _ hc)
    have hsub : vmem applied ⊆ applied.members.erase (pick (cSet snap applied)) :=
      (Finset.subset_erase).mpr ⟨hVM, hmnotV⟩
    rw [ht, vmem_mkTop hsub, Finset.inter_self]
    omega
  -- address-only refresh
  · rw [ht, vmem_mkTop hVM, Finset.inter_self]
    omega

lemma symmdiff_subset {s t u : Finset Nat} (h1 : s ⊆ t ∪ u) (h2 : t ⊆ s ∪ u) :
    (s \ t) ∪ (t \ s) ⊆ u := by
  intro x hx
  rcases Finset.mem_union.mp hx with hx | hx
  · rcases Finset.mem_sdiff.mp hx with ⟨hs, hnt⟩
    rcases Finset.mem_union.mp (h1 hs) with h | h
    · exact absurd h hnt
    · exact h
  · rcases Finset.mem_sdiff.mp hx with ⟨hs, hnt⟩
    rcases Finset.mem_union.mp (h2 hs) with h | h
    · exact absurd h hnt
    · exact h

lemma card_le_one_of_subset_singleton {s : Finset Nat} {a : Nat}
    (h : s ⊆ {a}) : s.card ≤ 1 := by
  have := Finset.card_le_card h
  simpa using this

lemma card_le_two_of_subset_pair {s : Finset Nat} {a b : Nat}
    (h : s ⊆ {a, b}) : s.card ≤ 2 := by
  have h1 := Finset.card_le_card h
  have h2 : ({a, b} : Finset Nat).card ≤ 2 := by
    have := Finset.card_insert_le a ({b} : Finset Nat)
    simpa using this
  omega

lemma card_inter_le_left (s t : Finset Nat) : (s ∩ t).card ≤ s.card :=
  Finset.card_le_card Finset.inter_subset_left

lemma symmdiff_insert_subset (s : Finset Nat) (a : Nat) :
    (s \ insert a s) ∪ (insert a s \ s) ⊆ {a} := by
  apply symmdiff_subset
  · exact Finset.subset_union_left.trans
      (Finset.union_subset_union (Finset.subset_insert a s) (Finset.Subset.refl _))
  · intro x hx
    rcases Finset.mem_insert.mp hx with hx | hx
    · exact Finset.mem_union_right _ (by simp [hx])
    · exact Finset.mem_union_left _ hx

lemma symmdiff_erase_subset (s : Finset Nat) (d : Nat) :
    (s \ s.erase d) ∪ (s.erase d \ s) ⊆ {d} := by
  apply symmdiff_subset
  · intro x hx
    by_cases hxd : x = d
    · exact Finset.mem_union_right _ (by simp [hxd])
    · exact Finset.mem_union_left _ (Finset.mem_erase.mpr ⟨hxd, hx⟩)
  · exact (Finset.erase_subset _ _).trans Finset.subset_union_left

lemma symmdiff_insert_erase_subset (s : Finset Nat) (a d : Nat) :
    (s \ insert a (s.erase d)) ∪ (insert a (s.erase d) \ s) ⊆ {d, a} := by
  apply symmdiff_subset
  · intro x hx
    by_cases hxd : x = d
    · exact Finset.mem_union_right _ (by simp [hxd])
    · exact Finset.mem_union_left _
        (Finset.mem_insert_of_mem (Finset.mem_erase.mpr ⟨hxd, hx⟩))
  · intro x hx
    rcases Finset.mem_insert.mp hx with hx | hx
    · exact Finset.mem_union_right _ (by simp [hx])
    · exact Finset.mem_union_left _ (Finset.mem_of_mem_erase hx)

lemma symmdiff_insert_insert_subset (s : Finset Nat) (a b : Nat) :
    (s \ insert b (insert a s)) ∪ (insert b (insert a s) \ s) ⊆ {a, b} := by
  apply symmdiff_subset
  · intro x hx
    exact Finset.mem_union_left _
      (Finset.mem_insert_of_mem (Finset.mem_insert_of_mem hx))
  · intro x hx
    rcases Finset.mem_insert.mp hx with hx | hx
    · exact Finset.mem_union_right _ (by simp [hx])
    · rcases Finset.mem_insert.mp hx with hx | hx
      · exact Finset.mem_union_right _ (by simp [hx])
      · exact Finset.mem_union_left _ hx

lemma symmdiff_erase_erase_subset (s : Finset Nat) (d e : Nat) :
    (s \ (s.erase d).erase e) ∪ ((s.erase d).erase e \ s) ⊆ {d, e} := by
  apply symmdiff_subset
  · intro x hx
    by_cases hxd : x = d
    · exact Finset.mem_union_right _ (by simp [hxd])
    · by_cases hxe : x = e
      · exact Finset.mem_union_right _ (by simp [hxe])
      · exact Finset.mem_union_left _
          (Finset.mem_erase.mpr ⟨hxe, Finset.mem_erase.mpr ⟨hxd, hx⟩⟩)
  · intro x hx
    exact Finset.mem_union_left _
      (Finset.mem_of_mem_erase (Finset.mem_of_mem_erase hx))

/-- Claim C3 (amended): when the applied configuration has at least one voter,
each emitted topology makes at most one member-presence change and at most two
structural changes in total (two only as a voter-status pair forced by the odd
invariant); address-only changes are unconstrained. -/
theorem computeTopology_single_step (snap : List Controller) (applied t : Topology)
    (h : computeTopology snap applied = ComputeResult.change t)
    (hne : vmem applied ≠ ∅) :
    presenceDelta applied t ≤ 1 ∧ structDelta applied t ≤ 2 := by
  have hVM : vmem applied ⊆ applied.members := vmem_subset applied
  unfold structDelta presenceDelta voteDelta
  rcases computeTopology_change_cases h with
    ⟨h1, h2, ht⟩ | ⟨h1, h2, h3, h4, ht⟩ | ⟨h1, h2, h3, h4, h5, ht⟩ |
    ⟨h1, h2, h3, h4, ht⟩ | ⟨h1, h2, h3, h4, h5, h6, h7, ht⟩ |
    ⟨h1, h2, h3, h4, h5, ht⟩ | ⟨h1, h2, h3, h4, h5, h6, ht⟩ |
    ⟨h1, h2, h3, h4, h5, ht⟩ | ⟨h1, h2, h3, h4, h5, ht⟩
  -- boot (excluded by hne)
  · exact absurd h2 hne
  -- parity repair by promotion
  · have hsub : insert (pick (aSet snap applied)) (vmem applied) ⊆
        insert (pick (aSet snap applied)) applied.members :=
      Finset.insert_subset_insert _ hVM
    rw [ht, vmem_mkTop hsub, members_mkTop]
    constructor
    · exact card_le_one_of_subset_singleton (symmdiff_insert_subset _ _)
    · have hv : ((vmem applied \ insert (pick (aSet snap applied)) (vmem applied)) ∪
          (insert (pick (aSet snap applied)) (vmem applied) \ vmem applied)).card ≤ 1 :=
        card_le_one_of_subset_singleton (symmdiff_insert_subset _ _)
      have hpc : ((applied.members \ insert (pick (aSet snap applied)) applied.members) ∪
          (insert (pick (aSet snap applied)) applied.members \ applied.members)).card ≤ 1 :=
        card_le_one_of_subset_singleton (symmdiff_insert_subset _ _)
      have hvi := card_inter_le_left ((vmem applied \ insert (pick (aSet snap applied)) (vmem applied)) ∪
          (insert (pick (aSet snap applied)) (vmem applied) \ vmem applied)) (applied.members ∩ (insert (pick (aSet snap applied)) applied.members))
      omega
  -- parity repair by demotion
  · have hD : dSet snap applied ≠ ∅ := dSet_ne_empty_of_aSet_empty h1 h3 h4
    have hsub : (vmem applied).erase (pick (dSet snap applied)) ⊆ applied.members :=
      (Finset.erase_subset _ _).trans hVM
    rw [ht, vmem_mkTop hsub, members_mkTop]
    constructor
    · simp
    · have hv : ((vmem applied \ (vmem applied).erase (pick (dSet snap applied))) ∪
          ((vmem applied).erase (pick (dSet snap applied)) \ vmem applied)).card ≤ 1 :=
        card_le_one_of_subset_singleton (symmdiff_erase_subset _ _)
      have hvi := card_inter_le_left ((vmem applied \ (vmem applied).erase (pick (dSet snap applied))) ∪
          ((vmem applied).erase (pick (dSet snap applied)) \ vmem applied)) (applied.members ∩ applied.members)
      simp only [Finset.sdiff_self, Finset.empty_union, Finset.union_empty, Finset.card_empty]
      omega
  -- add non-voting member
  · have hsub : vmem applied ⊆
        insert (pick (eligibleIds snap \ applied.members)) applied.members :=
      hVM.trans (Finset.subset_insert _ _)
    rw [ht, vmem_mkTop hsub, members_mkTop]
    constructor
    · exact card_le_one_of_subset_singleton (symmdiff_insert_subset _ _)
    · have hpc : ((applied.members \
          insert (pick (eligibleIds snap \ applied.members)) applied.members) ∪
          (insert (pick (eligibleIds snap \ applied.members)) applied.members \
            applied.members)).card ≤ 1 :=
        card_le_one_of_subset_singleton (symmdiff_insert_subset _ _)
      simp only [Finset.sdiff_self, Finset.empty_union, Finset.union_empty, Finset.card_empty]
      simp
      omega
  -- swap
  · have hd : pick (dSet snap applied) ∈ vmem applied := dSet_subset (pick_mem h5)
    have haM : pick (aSet snap applied) ∈ applied.members :=
      subset_of_sdiff_empty h4 (aSet_subset (pick_mem h6))
    have hsub : insert (pick (aSet snap applied))
        ((vmem applied).erase (pick (dSet snap applied))) ⊆ applied.members :=
      Finset.insert_subset haM ((Finset.erase_subset _ _).trans hVM)
    rw [ht, vmem_mkTop hsub, members_mkTop]
    constructor
    · simp
    · have hv : ((vmem applied \ insert (pick (aSet snap applied))
          ((vmem applied).erase (pick (dSet snap applied)))) ∪
          (insert (pick (aSet snap applied))
            ((vmem applied).erase (pick (dSet snap applied))) \ vmem applied)).card ≤ 2 :=
        card_le_two_of_subset_pair (symmdiff_insert_erase_subset _ _ _)
      have hvi := card_inter_le_left ((vmem applied \ insert (pick (aSet snap applied))
          ((vmem applied).erase (pick (dSet snap applied)))) ∪
          (insert (pick (aSet snap applied))
            ((vmem applied).erase (pick (dSet snap applied))) \ vmem applied)) (applied.members ∩ applied.members)
      simp only [Finset.sdiff_self, Finset.empty_union, Finset.union_empty, Finset.card_empty]
      omega
  -- promote two
  · have hEM : eligibleIds snap ⊆ applied.members := subset_of_sdiff_empty h4
    have hAne : aSet snap applied ≠ ∅ :=
      Finset.nonempty_iff_ne_empty.mp (Finset.card_pos.mp (by omega))
    have hA2ne : (aSet snap applied).erase (pick (aSet snap applied)) ≠ ∅ := by
      have : 0 < ((aSet snap applied).erase (pick (aSet snap applied))).card := by
        rw [Finset.card_erase_of_mem (pick_mem hAne)]
        omega
      exact Finset.nonempty_iff_ne_empty.mp (Finset.card_pos.mp this)
    have hsub : insert (pick ((aSet snap applied).erase (pick (aSet snap applied))))
        (insert (pick (aSet snap applied)) (vmem applied)) ⊆ applied.members :=
      Finset.insert_subset
        (hEM (aSet_subset (Finset.mem_of_mem_erase (pick_mem hA2ne))))
        (Finset.insert_subset (hEM (aSet_subset (pick_mem hAne))) hVM)
    rw [ht, vmem_mkTop hsub, members_mkTop]
    constructor
    · simp
    · have hv : ((vmem applied \
          insert (pick ((aSet snap applied).erase (pick (aSet snap applied))))
            (insert (pick (aSet snap applied)) (vmem applied))) ∪
          (insert (pick ((aSet snap applied).erase (pick (aSet snap applied))))
            (insert (pick (aSet snap applied)) (vmem applied)) \ vmem applied)).card ≤ 2 :=
        card_le_two_of_subset_pair (symmdiff_insert_insert_subset _ _ _)
      have hvi := card_inter_le_left ((vmem applied \
          insert (pick ((aSet snap applied).erase (pick (aSet snap applied))))
            (insert (pick (aSet snap applied)) (vmem applied))) ∪
          (insert (pick ((aSet snap applied).erase (pick (aSet snap applied))))
            (insert (pick (aSet snap applied)) (vmem applied)) \ vmem applied)) (applied.members ∩ applied.members)
      simp only [Finset.sdiff_self, Finset.empty_union, Finset.union_empty, Finset.card_empty]
      omega
  -- demote two
  · have hsub : ((vmem applied).erase (pick (dSet snap applied))).erase
        (pick ((dSet snap applied).erase (pick (dSet snap applied)))) ⊆
        applied.members :=
      ((Finset.erase_subset _ _).trans ((Finset.erase_subset _ _).trans hVM))
    rw [ht, vmem_mkTop hsub, members_mkTop]
    constructor
    · simp
    · have hv : ((vmem applied \ ((vmem applied).erase (pick (dSet snap applied))).erase
          (pick ((dSet snap applied).erase (pick (dSet snap applied))))) ∪
          (((vmem applied).erase (pick (dSet snap applied))).erase
            (pick ((dSet snap applied).erase (pick (dSet snap applied)))) \
            vmem applied)).card ≤ 2 :=
        card_le_two_of_subset_pair (symmdiff_erase_erase_subset _ _ _)
      have hvi := card_inter_le_left ((vmem applied \ ((vmem applied).erase (pick (dSet snap applied))).erase
          (pick ((dSet snap applied).erase (pick (dSet snap applied))))) ∪
          (((vmem applied).erase (pick (dSet snap applied))).erase
            (pick ((dSet snap applied).erase (pick (dSet snap applied)))) \
            vmem applied)) (applied.members ∩ applied.members)
      simp only [Finset.sdiff_self, Finset.empty_union, Finset.union_empty, Finset.card_empty]
      omega
  -- remove unwanted non-voter
  · have hmnotV : pick (cSet snap applied) ∉ vmem applied := by
      have := (Finset.mem_sdiff.mp (pick_mem h5)).2
      intro hc
      exact this (Finset.mem_union_right _ hc)
    have hsub : vmem applied ⊆ applied.members.erase (pick (cSet snap applied)) :=
      (Finset.subset_erase).mpr ⟨hVM, hmnotV⟩
    rw [ht, vmem_mkTop hsub, members_mkTop]
    constructor
    · exact card_le_one_of_subset_singleton (symmdiff_erase_subset _ _)
    · have hpc : ((applied.members \
          applied.members.erase (pick (cSet snap applied))) ∪
          (applied.members.erase (pick (cSet snap applied)) \
            applied.members)).card ≤ 1 :=
        card_le_one_of_subset_singleton (symmdiff_erase_subset _ _)
      simp only [Finset.sdiff_self, Finset.empty_union, Finset.union_empty, Finset.card_empty]
      simp
      omega
  -- address-only refresh
  · rw [ht, vmem_mkTop hVM, members_mkTop]
    simp

/- ===================== Convergence measure lemmas ===================== -/

lemma sdiff_erase_eq {s v : Finset Nat} {d : Nat} (hd : d ∉ s) :
    s \ v.erase d = s \ v := by
  ext x
  simp only [Finset.mem_sdiff, Finset.mem_erase]
  constructor
  · rintro ⟨hxs, hxe⟩
    refine ⟨hxs, fun hxv => hxe ⟨fun hxd => hd (hxd ▸ hxs), hxv⟩⟩
  · rintro ⟨hxs, hxv⟩
    exact ⟨hxs, fun hc => hxv hc.2⟩

lemma card_le_add_one_of_subset_union {s t : Finset Nat} {d : Nat}
    (h : s ⊆ t ∪ {d}) : s.card ≤ t.card + 1 := by
  have h1 := Finset.card_le_card h
  have h2 := Finset.card_union_le t ({d} : Finset Nat)
  simp only [Finset.card_singleton] at h2
  omega

lemma card_le_add_two_of_subset_union {s t : Finset Nat} {d e : Nat}
    (h : s ⊆ t ∪ {d, e}) : s.card ≤ t.card + 2 := by
  have h1 := Finset.card_le_card h
  have h2 := Finset.card_union_le t ({d, e} : Finset Nat)
  have h3 : ({d, e} : Finset Nat).card ≤ 2 := by
    have := Finset.card_insert_le d ({e} : Finset Nat)
    simpa using this
  omega

lemma unwanted_after_demote {M E V : Finset Nat} {d : Nat} :
    M \ (E ∪ V.erase d) ⊆ (M \ (E ∪ V)) ∪ {d} := by
  intro x hx
  rcases Finset.mem_sdiff.mp hx with ⟨hxM, hxU⟩
  rw [Finset.mem_union] at hxU
  push_neg at hxU
  by_cases hxd : x = d
  · exact Finset.mem_union_right _ (by simp [hxd])
  · refine Finset.mem_union_left _ (Finset.mem_sdiff.mpr ⟨hxM, ?_⟩)
    rw [Finset.mem_union]
    push_neg
    refine ⟨hxU.1, fun hxV => hxU.2 (Finset.mem_erase.mpr ⟨hxd, hxV⟩)⟩

lemma unwanted_after_demote_two {M E V : Finset Nat} {d e : Nat} :
    M \ (E ∪ (V.erase d).erase e) ⊆ (M \ (E ∪ V)) ∪ {d, e} := by
  intro x hx
  rcases Finset.mem_sdiff.mp hx with ⟨hxM, hxU⟩
  rw [Finset.mem_union] at hxU
  push_neg at hxU
  by_cases hxd : x = d
  · exact Finset.mem_union_right _ (by simp [hxd])
  by_cases hxe : x = e
  · exact Finset.mem_union_right _ (by simp [hxe])
  refine Finset.mem_union_left _ (Finset.mem_sdiff.mpr ⟨hxM, ?_⟩)
  rw [Finset.mem_union]
  push_neg
  refine ⟨hxU.1, fun hxV => hxU.2
    (Finset.mem_erase.mpr ⟨hxe, Finset.mem_erase.mpr ⟨hxd, hxV⟩⟩)⟩

lemma unwanted_after_swap {M E V : Finset Nat} {a d : Nat} :
    M \ (E ∪ insert a (V.erase d)) ⊆ (M \ (E ∪ V)) ∪ {d} := by
  intro x hx
  have hx2 : x ∈ M \ (E ∪ V.erase d) := by
    rcases Finset.mem_sdiff.mp hx with ⟨hxM, hxU⟩
    rw [Finset.mem_union] at hxU
    push_neg at hxU
    refine Finset.mem_sdiff.mpr ⟨hxM, ?_⟩
    rw [Finset.mem_union]
    push_neg
    exact ⟨hxU.1, fun hc => hxU.2 (Finset.mem_insert_of_mem hc)⟩
  exact unwanted_after_demote hx2

lemma unwanted_after_promote {M E V : Finset Nat} {a : Nat} (ha : a ∈ E) :
    insert a M \ (E ∪ insert a V) ⊆ M \ (E ∪ V) := by
  intro x hx
  rcases Finset.mem_sdiff.mp hx with ⟨hxM, hxU⟩
  rw [Finset.mem_union] at hxU
  push_neg at hxU
  have hxa : x ≠ a := fun hc => hxU.1 (hc ▸ ha)
  refine Finset.mem_sdiff.mpr ⟨?_, ?_⟩
  · rcases Finset.mem_insert.mp hxM with hc | hc
    · exact absurd hc hxa
    · exact hc
  · rw [Finset.mem_union]
    push_neg
    exact ⟨hxU.1, fun hc => hxU.2 (Finset.mem_insert_of_mem hc)⟩

lemma unwanted_after_promote_two {M E V : Finset Nat} {a b : Nat} :
    M \ (E ∪ insert b (insert a V)) ⊆ M \ (E ∪ V) := by
  apply Finset.sdiff_subset_sdiff (Finset.Subset.refl M)
  exact Finset.union_subset_union (Finset.Subset.refl E)
    ((Finset.subset_insert _ _).trans (Finset.subset_insert _ _))

lemma stepMeasure_decreases {snap : List Controller} {applied t : Topology}
    (h : computeTopology snap applied = ComputeResult.change t) :
    stepMeasure snap t < stepMeasure snap applied := by
  have hVM : vmem applied ⊆ applied.members := vmem_subset applied
  rcases computeTopology_change_cases h with
    ⟨h1, h2, ht⟩ | ⟨h1, h2, h3, h4, ht⟩ | ⟨h1, h2, h3, h4, h5, ht⟩ |
    ⟨h1, h2, h3, h4, ht⟩ | ⟨h1, h2, h3, h4, h5, h6, h7, ht⟩ |
    ⟨h1, h2, h3, h4, h5, ht⟩ | ⟨h1, h2, h3, h4, h5, h6, ht⟩ |
    ⟨h1, h2, h3, h4, h5, ht⟩ | ⟨h1, h2, h3, h4, h5, ht⟩
  -- boot: all later components vanish; the voterless flag drops from 1 to 0
  · have hTsub := targetVoters_subset (eligibleIds snap)
    have hm0 : (if mismatchSet snap t = ∅ then (0:Nat) else 1) = 0 := by
      rw [ht]
      simp [mismatchSet_mkTop]
    unfold stepMeasure
    rw [hm0, ht, vmem_mkTop hTsub, members_mkTop]
    rw [if_neg (targetVoters_ne_empty h1), if_pos h2]
    have e2 : eligibleIds snap \ eligibleIds snap = ∅ := Finset.sdiff_self _
    have e3a : targetVoters (eligibleIds snap) \ targetVoters (eligibleIds snap) = ∅ :=
      Finset.sdiff_self _
    have e4 : eligibleIds snap \ (eligibleIds snap ∪ targetVoters (eligibleIds snap)) = ∅ :=
      Finset.sdiff_eq_empty_iff_subset.mpr Finset.subset_union_left
    rw [e2, e3a, e4]
    simp
  -- parity repair by promotion
  · have ha : pick (aSet snap applied) ∈ aSet snap applied := pick_mem h4
    have haT : pick (aSet snap applied) ∈ targetVoters (eligibleIds snap) :=
      (Finset.mem_sdiff.mp ha).1
    have haE : pick (aSet snap applied) ∈ eligibleIds snap := targetVoters_subset _ haT
    have hsub : insert (pick (aSet snap applied)) (vmem applied) ⊆
        insert (pick (aSet snap applied)) applied.members :=
      Finset.insert_subset_insert _ hVM
    have hm0 : (if mismatchSet snap t = ∅ then (0:Nat) else 1) = 0 := by
      rw [ht]
      simp [mismatchSet_mkTop]
    have hm5 : (if mismatchSet snap applied = ∅ then (0:Nat) else 1) ≤ 1 := by
      split <;> omega
    unfold stepMeasure
    rw [hm0, ht, vmem_mkTop hsub, members_mkTop]
    rw [if_neg (Finset.insert_ne_empty _ _), if_neg h2]
    have e2 : (eligibleIds snap \ insert (pick (aSet snap applied)) applied.members).card ≤
        (eligibleIds snap \ applied.members).card :=
      Finset.card_le_card
        (Finset.sdiff_subset_sdiff (Finset.Subset.refl _) (Finset.subset_insert _ _))
    have e3a : insert (pick (aSet snap applied)) (vmem applied) \
        targetVoters (eligibleIds snap) = vmem applied \ targetVoters (eligibleIds snap) :=
      Finset.insert_sdiff_of_mem _ haT
    have e3b : targetVoters (eligibleIds snap) \
        insert (pick (aSet snap applied)) (vmem applied) =
        (targetVoters (eligibleIds snap) \ vmem applied).erase (pick (aSet snap applied)) :=
      Finset.sdiff_insert _ _ _
    have e3bcard : ((targetVoters (eligibleIds snap) \ vmem applied).erase
        (pick (aSet snap applied))).card =
        (targetVoters (eligibleIds snap) \ vmem applied).card - 1 :=
      Finset.card_erase_of_mem ha
    have e3pos : 0 < (targetVoters (eligibleIds snap) \ vmem applied).card :=
      Finset.card_pos.mpr (Finset.nonempty_iff_ne_empty.mpr h4)
    have e4 : (insert (pick (aSet snap applied)) applied.members \
        (eligibleIds snap ∪ insert (pick (aSet snap applied)) (vmem applied))).card ≤
        (applied.members \ (eligibleIds snap ∪ vmem applied)).card :=
      Finset.card_le_card (unwanted_after_promote haE)
    rw [e3a, e3b, e3bcard]
    omega
  -- parity repair by demotion
  · have hD : dSet snap applied ≠ ∅ := dSet_ne_empty_of_aSet_empty h1 h3 h4
    have hd : pick (dSet snap applied) ∈ dSet snap applied := pick_mem hD
    have hdV : pick (dSet snap applied) ∈ vmem applied := dSet_subset hd
    have hdT : pick (dSet snap applied) ∉ targetVoters (eligibleIds snap) :=
      (Finset.mem_sdiff.mp hd).2
    have hsub : (vmem applied).erase (pick (dSet snap applied)) ⊆ applied.members :=
      (Finset.erase_subset _ _).trans hVM
    have hVne' : (vmem applied).erase (pick (dSet snap applied)) ≠ ∅ := by
      have hc : ((vmem applied).erase (pick (dSet snap applied))).card =
          (vmem applied).card - 1 := Finset.card_erase_of_mem hdV
      have : 0 < ((vmem applied).erase (pick (dSet snap applied))).card := by omega
      exact Finset.nonempty_iff_ne_empty.mp (Finset.card_pos.mp this)
    have hm0 : (if mismatchSet snap t = ∅ then (0:Nat) else 1) = 0 := by
      rw [ht]
      simp [mismatchSet_mkTop]
    have hm5 : (if mismatchSet snap applied = ∅ then (0:Nat) else 1) ≤ 1 := by
      split <;> omega
    unfold stepMeasure
    rw [hm0, ht, vmem_mkTop hsub, members_mkTop]
    rw [if_neg hVne', if_neg h2]
    have e3a : (vmem applied).erase (pick (dSet snap applied)) \
        targetVoters (eligibleIds snap) =
        (vmem applied \ targetVoters (eligibleIds snap)).erase (pick (dSet snap applied)) :=
      Finset.erase_sdiff_comm _ _ _
    have e3acard : ((vmem applied \ targetVoters (eligibleIds snap)).erase
        (pick (dSet snap applied))).card =
        (vmem applied \ targetVoters (eligibleIds snap)).card - 1 :=
      Finset.card_erase_of_mem hd
    have e3pos : 0 < (vmem applied \ targetVoters (eligibleIds snap)).card :=
      Finset.card_pos.mpr (Finset.nonempty_iff_ne_empty.mpr hD)
    have e3b : targetVoters (eligibleIds snap) \
        (vmem applied).erase (pick (dSet snap applied)) =
        targetVoters (eligibleIds snap) \ vmem applied :=
      sdiff_erase_eq hdT
    have e4 : (applied.members \ (eligibleIds snap ∪
        (vmem applied).erase (pick (dSet snap applied)))).card ≤
        (applied.members \ (eligibleIds snap ∪ vmem applied)).card + 1 :=
      card_le_add_one_of_subset_union unwanted_after_demote
    rw [e3a, e3acard, e3b]
    omega
  -- add non-voting member
  · have he : pick (eligibleIds snap \ applied.members) ∈
        eligibleIds snap \ applied.members := pick_mem h4
    have heE : pick (eligibleIds snap \ applied.members) ∈ eligibleIds snap :=
      (Finset.mem_sdiff.mp he).1
    have hsub : vmem applied ⊆
        insert (pick (eligibleIds snap \ applied.members)) applied.members :=
      hVM.trans (Finset.subset_insert _ _)
    have hm0 : (if mismatchSet snap t = ∅ then (0:Nat) else 1) = 0 := by
      rw [ht]
      simp [mismatchSet_mkTop]
    have hm5 : (if mismatchSet snap applied = ∅ then (0:Nat) else 1) ≤ 1 := by
      split <;> omega
    unfold stepMeasure
    rw [hm0, ht, vmem_mkTop hsub, members_mkTop]
    rw [if_neg h2]
    have e2 : eligibleIds snap \
        insert (pick (eligibleIds snap \ applied.members)) applied.members =
        (eligibleIds snap \ applied.members).erase
          (pick (eligibleIds snap \ applied.members)) :=
      Finset.sdiff_insert _ _ _
    have e2card : ((eligibleIds snap \ applied.members).erase
        (pick (eligibleIds snap \ applied.members))).card =
        (eligibleIds snap \ applied.members).card - 1 :=
      Finset.card_erase_of_mem he
    have e2pos : 0 < (eligibleIds snap \ applied.members).card :=
      Finset.card_pos.mpr (Finset.nonempty_iff_ne_empty.mpr h4)
    have e4 : insert (pick (eligibleIds snap \ applied.members)) applied.members \
        (eligibleIds snap ∪ vmem applied) =
        applied.members \ (eligibleIds snap ∪ vmem applied) :=
      Finset.insert_sdiff_of_mem _ (Finset.mem_union_left _ heE)
    rw [e2, e2card, e4]
    omega
  -- swap
  · have ha : pick (aSet snap applied) ∈ aSet snap applied := pick_mem h6
    have haT : pick (aSet snap applied) ∈ targetVoters (eligibleIds snap) :=
      (Finset.mem_sdiff.mp ha).1
    have hd : pick (dSet snap applied) ∈ dSet snap applied := pick_mem h5
    have hdT : pick (dSet snap applied) ∉ targetVoters (eligibleIds snap) :=
      (Finset.mem_sdiff.mp hd).2
    have haM : pick (aSet snap applied) ∈ applied.members :=
      subset_of_sdiff_empty h4 (aSet_subset ha)
    have hsub : insert (pick (aSet snap applied))
        ((vmem applied).erase (pick (dSet snap applied))) ⊆ applied.members :=
      Finset.insert_subset haM ((Finset.erase_subset _ _).trans hVM)
    have hm0 : (if mismatchSet snap t = ∅ then (0:Nat) else 1) = 0 := by
      rw [ht]
      simp [mismatchSet_mkTop]
    have hm5 : (if mismatchSet snap applied = ∅ then (0:Nat) else 1) ≤ 1 := by
      split <;> omega
    unfold stepMeasure
    rw [hm0, ht, vmem_mkTop hsub, members_mkTop]
    rw [if_neg (Finset.insert_ne_empty _ _), if_neg h2]
    have e3a : insert (pick (aSet snap applied))
        ((vmem applied).erase (pick (dSet snap applied))) \
        targetVoters (eligibleIds snap) =
        (vmem applied \ targetVoters (eligibleIds snap)).erase
          (pick (dSet snap applied)) := by
      rw [Finset.insert_sdiff_of_mem _ haT]
      exact Finset.erase_sdiff_comm _ _ _
    have e3acard : ((vmem applied \ targetVoters (eligibleIds snap)).erase
        (pick (dSet snap applied))).card =
        (vmem applied \ targetVoters (eligibleIds snap)).card - 1 :=
      Finset.card_erase_of_mem hd
    have e3apos : 0 < (vmem applied \ targetVoters (eligibleIds snap)).card :=
      Finset.card_pos.mpr (Finset.nonempty_iff_ne_empty.mpr h5)
    have e3b : targetVoters (eligibleIds snap) \
        insert (pick (aSet snap applied))
          ((vmem applied).erase (pick (dSet snap applied))) =
        (targetVoters (eligibleIds snap) \ vmem applied).erase
          (pick (aSet snap applied)) := by
      rw [Finset.sdiff_insert]
      rw [sdiff_erase_eq hdT]
    have e3bcard : ((targetVoters (eligibleIds snap) \ vmem applied).erase
        (pick (aSet snap applied))).card =
        (targetVoters (eligibleIds snap) \ vmem applied).card - 1 :=
      Finset.card_erase_of_mem ha
    have e3bpos : 0 < (targetVoters (eligibleIds snap) \ vmem applied).card :=
      Finset.card_pos.mpr (Finset.nonempty_iff_ne_empty.mpr h6)
    have e4 : (applied.members \ (eligibleIds snap ∪
        insert (pick (aSet snap applied))
          ((vmem applied).erase (pick (dSet snap applied))))).card ≤
        (applied.members \ (eligibleIds snap ∪ vmem applied)).card + 1 :=
      card_le_add_one_of_subset_union unwanted_after_swap
    rw [e3a, e3acard, e3b, e3bcard]
    omega
  -- promote two
  · have hEM : eligibleIds snap ⊆ applied.members := subset_of_sdiff_empty h4
    have hAne : aSet snap applied ≠ ∅ :=
      Finset.nonempty_iff_ne_empty.mp (Finset.card_pos.mp (by omega))
    have ha1 : pick (aSet snap applied) ∈ aSet snap applied := pick_mem hAne
    have ha1T : pick (aSet snap applied) ∈ targetVoters (eligibleIds snap) :=
      (Finset.mem_sdiff.mp ha1).1
    have hA2ne : (aSet snap applied).erase (pick (aSet snap applied)) ≠ ∅ := by
      have : 0 < ((aSet snap applied).erase (pick (aSet snap applied))).card := by
        rw [Finset.card_erase_of_mem ha1]
        omega
      exact Finset.nonempty_iff_ne_empty.mp (Finset.card_pos.mp this)
    have ha2e : pick ((aSet snap applied).erase (pick (aSet snap applied))) ∈
        (aSet snap applied).erase (pick (aSet snap applied)) := pick_mem hA2ne
    have ha2 : pick ((aSet snap applied).erase (pick (aSet snap applied))) ∈
        aSet snap applied := Finset.mem_of_mem_erase ha2e
    have ha2T : pick ((aSet snap applied).erase (pick (aSet snap applied))) ∈
        targetVoters (eligibleIds snap) := (Finset.mem_sdiff.mp ha2).1
    have hsub : insert (pick ((aSet snap applied).erase (pick (aSet snap applied))))
        (insert (pick (aSet snap applied)) (vmem applied)) ⊆ applied.members :=
      Finset.insert_subset (hEM (aSet_subset ha2))
        (Finset.insert_subset (hEM (aSet_subset ha1)) hVM)
    have hm0 : (if mismatchSet snap t = ∅ then (0:Nat) else 1) = 0 := by
      rw [ht]
      simp [mismatchSet_mkTop]
    have hm5 : (if mismatchSet snap applied = ∅ then (0:Nat) else 1) ≤ 1 := by
      split <;> omega
    unfold stepMeasure
    rw [hm0, ht, vmem_mkTop hsub, members_mkTop]
    rw [if_neg (Finset.insert_ne_empty _ _), if_neg h2]
    have e3a : insert (pick ((aSet snap applied).erase (pick (aSet snap applied))))
        (insert (pick (aSet snap applied)) (vmem applied)) \
        targetVoters (eligibleIds snap) =
        vmem applied \ targetVoters (eligibleIds snap) := by
      rw [Finset.insert_sdiff_of_mem _ ha2T, Finset.insert_sdiff_of_mem _ ha1T]
    have e3b : targetVoters (eligibleIds snap) \
        insert (pick ((aSet snap applied).erase (pick (aSet snap applied))))
          (insert (pick (aSet snap applied)) (vmem applied)) =
        ((targetVoters (eligibleIds snap) \ vmem applied).erase
          (pick (aSet snap applied))).erase
          (pick ((aSet snap applied).erase (pick (aSet snap applied)))) := by
      rw [Finset.sdiff_insert, Finset.sdiff_insert]
    have e3bcard1 : (((targetVoters (eligibleIds snap) \ vmem applied).erase
        (pick (aSet snap applied))).erase
        (pick ((aSet snap applied).erase (pick (aSet snap applied))))).card =
        ((targetVoters (eligibleIds snap) \ vmem applied).erase
          (pick (aSet snap applied))).card - 1 :=
      Finset.card_erase_of_mem ha2e
    have e3bcard2 : ((targetVoters (eligibleIds snap) \ vmem applied).erase
        (pick (aSet snap applied))).card =
        (targetVoters (eligibleIds snap) \ vmem applied).card - 1 :=
      Finset.card_erase_of_mem ha1
    have e4 : (applied.members \ (eligibleIds snap ∪
        insert (pick ((aSet snap applied).erase (pick (aSet snap applied))))
          (insert (pick (aSet snap applied)) (vmem applied)))).card ≤
        (applied.members \ (eligibleIds snap ∪ vmem applied)).card :=
      Finset.card_le_card unwanted_after_promote_two
    rw [e3a, e3b, e3bcard1, e3bcard2]
    have hA : 2 ≤ (targetVoters (eligibleIds snap) \ vmem applied).card := h5
    omega
  -- demote two
  · have hDne : dSet snap applied ≠ ∅ :=
      Finset.nonempty_iff_ne_empty.mp (Finset.card_pos.mp (by omega))
    have hd1 : pick (dSet snap applied) ∈ dSet snap applied := pick_mem hDne
    have hd1V : pick (dSet snap applied) ∈ vmem applied := dSet_subset hd1
    have hd1T : pick (dSet snap applied) ∉ targetVoters (eligibleIds snap) :=
      (Finset.mem_sdiff.mp hd1).2
    have hD2ne : (dSet snap applied).erase (pick (dSet snap applied)) ≠ ∅ := by
      have : 0 < ((dSet snap applied).erase (pick (dSet snap applied))).card := by
        rw [Finset.card_erase_of_mem hd1]
        omega
      exact Finset.nonempty_iff_ne_empty.mp (Finset.card_pos.mp this)
    have hd2e : pick ((dSet snap applied).erase (pick (dSet snap applied))) ∈
        (dSet snap applied).erase (pick (dSet snap applied)) := pick_mem hD2ne
    have hd2 : pick ((dSet snap applied).erase (pick (dSet snap applied))) ∈
        dSet snap applied := Finset.mem_of_mem_erase hd2e
    have hd2T : pick ((dSet snap applied).erase (pick (dSet snap applied))) ∉
        targetVoters (eligibleIds snap) := (Finset.mem_sdiff.mp hd2).2
    have hd2E : pick ((dSet snap applied).erase (pick (dSet snap applied))) ∈
        (vmem applied).erase (pick (dSet snap applied)) :=
      Finset.mem_erase.mpr ⟨Finset.ne_of_mem_erase hd2e, dSet_subset hd2⟩
    have hd2ED : pick ((dSet snap applied).erase (pick (dSet snap applied))) ∈
        (vmem applied \ targetVoters (eligibleIds snap)).erase
          (pick (dSet snap applied)) :=
      Finset.mem_erase.mpr ⟨Finset.ne_of_mem_erase hd2e, hd2⟩
    have hsub : ((vmem applied).erase (pick (dSet snap applied))).erase
        (pick ((dSet snap applied).erase (pick (dSet snap applied)))) ⊆
        applied.members :=
      ((Finset.erase_subset _ _).trans ((Finset.erase_subset _ _).trans hVM))
    have hVne' : ((vmem applied).erase (pick (dSet snap applied))).erase
        (pick ((dSet snap applied).erase (pick (dSet snap applied)))) ≠ ∅ := by
      have hc1 : (((vmem applied).erase (pick (dSet snap applied))).erase
          (pick ((dSet snap applied).erase (pick (dSet snap applied))))).card =
          ((vmem applied).erase (pick (dSet snap applied))).card - 1 :=
        Finset.card_erase_of_mem hd2E
      have hc2 : ((vmem applied).erase (pick (dSet snap applied))).card =
          (vmem applied).card - 1 := Finset.card_erase_of_mem hd1V
      have : 0 < (((vmem applied).erase (pick (dSet snap applied))).erase
          (pick ((dSet snap applied).erase (pick (dSet snap applied))))).card := by
        omega
      exact Finset.nonempty_iff_ne_empty.mp (Finset.card_pos.mp this)
    have hm0 : (if mismatchSet snap t = ∅ then (0:Nat) else 1) = 0 := by
      rw [ht]
      simp [mismatchSet_mkTop]
    have hm5 : (if mismatchSet snap applied = ∅ then (0:Nat) else 1) ≤ 1 := by
      split <;> omega
    unfold stepMeasure
    rw [hm0, ht, vmem_mkTop hsub, members_mkTop]
    rw [if_neg hVne', if_neg h2]
    have e3a : ((vmem applied).erase (pick (dSet snap applied))).erase
        (pick ((dSet snap applied).erase (pick (dSet snap applied)))) \
        targetVoters (eligibleIds snap) =
        ((vmem applied \ targetVoters (eligibleIds snap)).erase
          (pick (dSet snap applied))).erase
          (pick ((dSet snap applied).erase (pick (dSet snap applied)))) := by
      rw [Finset.erase_sdiff_comm, Finset.erase_sdiff_comm]
    have e3acard1 : (((vmem applied \ targetVoters (eligibleIds snap)).erase
        (pick (dSet snap applied))).erase
        (pick ((dSet snap applied).erase (pick (dSet snap applied))))).card =
        ((vmem applied \ targetVoters (eligibleIds snap)).erase
          (pick (dSet snap applied))).card - 1 :=
      Finset.card_erase_of_mem hd2ED
    have e3acard2 : ((vmem applied \ targetVoters (eligibleIds snap)).erase
        (pick (dSet snap applied))).card =
        (vmem applied \ targetVoters (eligibleIds snap)).card - 1 :=
      Finset.card_erase_of_mem hd1
    have e3b : targetVoters (eligibleIds snap) \
        ((vmem applied).erase (pick (dSet snap applied))).erase
          (pick ((dSet snap applied).erase (pick (dSet snap applied)))) =
        targetVoters (eligibleIds snap) \ vmem applied := by
      rw [sdiff_erase_eq hd2T, sdiff_erase_eq hd1T]
    have e4 : (applied.members \ (eligibleIds snap ∪
        ((vmem applied).erase (pick (dSet snap applied))).erase
          (pick ((dSet snap applied).erase (pick (dSet snap applied)))))).card ≤
        (applied.members \ (eligibleIds snap ∪ vmem applied)).card + 2 :=
      card_le_add_two_of_subset_union unwanted_after_demote_two
    rw [e3a, e3acard1, e3acard2, e3b]
    have hD : 2 ≤ (vmem applied \ targetVoters (eligibleIds snap)).card := h5
    omega
  -- remove unwanted non-voter
  · have hm : pick (cSet snap applied) ∈ cSet snap applied := pick_mem h5
    have hmM : pick (cSet snap applied) ∈ applied.members :=
      (Finset.mem_sdiff.mp hm).1
    have hmEV : pick (cSet snap applied) ∉ eligibleIds snap ∪ vmem applied :=
      (Finset.mem_sdiff.mp hm).2
    have hmE : pick (cSet snap applied) ∉ eligibleIds snap :=
      fun hc => hmEV (Finset.mem_union_left _ hc)
    have hmV : pick (cSet snap applied) ∉ vmem applied :=
      fun hc => hmEV (Finset.mem_union_right _ hc)
    have hsub : vmem applied ⊆ applied.members.erase (pick (cSet snap applied)) :=
      (Finset.subset_erase).mpr ⟨hVM, hmV⟩
    have hm0 : (if mismatchSet snap t = ∅ then (0:Nat) else 1) = 0 := by
      rw [ht]
      simp [mismatchSet_mkTop]
    have hm5 : (if mismatchSet snap applied = ∅ then (0:Nat) else 1) ≤ 1 := by
      split <;> omega
    unfold stepMeasure
    rw [hm0, ht, vmem_mkTop hsub, members_mkTop]
    rw [if_neg h2]
    have e2 : eligibleIds snap \ applied.members.erase (pick (cSet snap applied)) =
        eligibleIds snap \ applied.members := sdiff_erase_eq hmE
    have e4 : applied.members.erase (pick (cSet snap applied)) \
        (eligibleIds snap ∪ vmem applied) =
        (applied.members \ (eligibleIds snap ∪ vmem applied)).erase
          (pick (cSet snap applied)) :=
      Finset.erase_sdiff_comm _ _ _
    have e4card : ((applied.members \ (eligibleIds snap ∪ vmem applied)).erase
        (pick (cSet snap applied))).card =
        (applied.members \ (eligibleIds snap ∪ vmem applied)).card - 1 :=
      Finset.card_erase_of_mem hm
    have e4pos : 0 < (applied.members \ (eligibleIds snap ∪ vmem applied)).card :=
      Finset.card_pos.mpr (Finset.nonempty_iff_ne_empty.mpr h5)
    rw [e2, e4, e4card]
    omega
  -- address-only refresh
  · have hm0 : (if mismatchSet snap t = ∅ then (0:Nat) else 1) = 0 := by
      rw [ht]
      simp [mismatchSet_mkTop]
    unfold stepMeasure
    rw [hm0, ht, vmem_mkTop hVM, members_mkTop]
    rw [if_neg h2, if_neg h5]
    omega

lemma computeTopology_ne_fatal {snap : List Controller} {applied : Topology}
    (h1 : eligibleIds snap ≠ ∅) :
    computeTopology snap applied ≠ ComputeResult.fatal := by
  unfold computeTopology
  rw [if_neg h1]
  repeat' split
  all_goals simp

/-- Claim C4 (amended): with the snapshot held fixed and containing at least
one eligible controller, feeding the Topology Computer its own prior output
reaches "no change" after finitely many cycles, from any starting
configuration. -/
theorem computeTopology_converges (snap : List Controller) (t0 : Topology)
    (h1 : eligibleIds snap ≠ ∅) :
    ∃ k, iterCompute snap k t0 = ComputeResult.noChange := by
  generalize hm : stepMeasure snap t0 = n
  induction n using Nat.strong_induction_on generalizing t0 with
  | _ n ih =>
    cases hc : computeTopology snap t0 with
    | noChange => exact ⟨0, hc⟩
    | fatal => exact absurd hc (computeTopology_ne_fatal h1)
    | change t2 =>
      have hlt := stepMeasure_decreases hc
      rw [hm] at hlt
      obtain ⟨k, hk⟩ := ih (stepMeasure snap t2) hlt t2 rfl
      refine ⟨k + 1, ?_⟩
      show iterCompute snap (k + 1) t0 = ComputeResult.noChange
      simp only [iterCompute, hc]
      exact hk

/- ===================== Address Publisher theorems ===================== -/

lemma publishCount_all_eq (S : Finset HostPort) (ds : List (List HostPort))
    (h : ∀ d ∈ ds, d.toFinset = S) : publishCount (some S) ds = 0 := by
  induction ds with
  | nil => rfl
  | cons d rest ih =>
    have hd : d.toFinset = S := h d (List.mem_cons_self d rest)
    simp only [publishCount, hd, if_pos]
    exact ih (fun x hx => h x (List.mem_cons_of_mem d hx))

/-- Claim C5 (amended): the Address Publisher never publishes when the newly
derived list equals (as a set, order-insensitively and value-based) the last
published one; consequently any run of cycles all observing the same
host:port set triggers at most one Publish, whatever the starting state. -/
theorem publisher_dedup :
    (∀ (S : Finset HostPort) (d : List HostPort), d.toFinset = S →
      publishStep (some S) d = (some S, false)) ∧
    (∀ (prev : Option (Finset HostPort)) (d1 d2 : List HostPort), d1.Perm d2 →
      publishStep prev d1 = publishStep prev d2) ∧
    (∀ (prev : Option (Finset HostPort)) (ds : List (List HostPort))
      (S : Finset HostPort), (∀ d ∈ ds, d.toFinset = S) →
      publishCount prev ds ≤ 1) := by
  refine ⟨?_, ?_, ?_⟩
  · intro S d hd
    simp [publishStep, hd]
  · intro prev d1 d2 hperm
    simp [publishStep, List.toFinset_eq_of_perm _ _ hperm]
  · intro prev ds
    induction ds generalizing prev with
    | nil =>
      intro S _
      simp [publishCount]
    | cons d rest ih =>
      intro S hS
      have hd : d.toFinset = S := hS d (List.mem_cons_self d rest)
      have hrest : ∀ x ∈ rest, x.toFinset = S :=
        fun x hx => hS x (List.mem_cons_of_mem d hx)
      by_cases hc : some d.toFinset = prev
      · simp only [publishCount, hc, if_pos]
        exact ih prev S hrest
      · simp only [publishCount, hc, if_neg, ite_false]
        rw [hd, publishCount_all_eq S rest hrest]

/- ===================== APIAddresser theorems ===================== -/

lemma foldl_skip_empty (l acc : List String) :
    l.foldl (fun acc2 a => if a ≠ "" then acc2 ++ [a] else acc2) acc =
      acc ++ l.filter (fun a => a ≠ "") := by
  induction l generalizing acc with
  | nil => simp
  | cons a as ih =>
    rw [List.foldl_cons, List.filter_cons]
    by_cases ha : a ≠ ""
    · rw [if_pos ha, ih, if_pos (by simpa using ha)]
      simp
    · rw [if_neg ha, ih, if_neg (by simpa using ha)]

lemma foldl_servers (prioritize : List HostPort → List String)
    (servers : List (List HostPort)) (acc : List String) :
    servers.foldl
      (fun acc hostPorts => (prioritize hostPorts).foldl
        (fun acc2 a => if a ≠ "" then acc2 ++ [a] else acc2) acc) acc =
    acc ++ servers.flatMap (fun hps => (prioritize hps).filter (fun a => a ≠ "")) := by
  induction servers generalizing acc with
  | nil => simp
  | cons s rest ih =>
    simp only [List.foldl_cons, List.flatMap_cons]
    rw [foldl_skip_empty, ih, List.append_assoc]

/-- Claim C6: apiAddresses returns, when the getter succeeds, exactly the
prioritized per-server address strings with empty strings dropped,
concatenated over the servers in order; on getter error it returns a nil
slice with that error, and APIAddresses returns an empty StringsResult with
the error. -/
theorem apiAddresses_spec (prioritize : List HostPort → List String)
    (res : APIHostPortsOutcome) :
    (res.err = none →
      apiAddresses prioritize res =
        (some (res.servers.flatMap
          (fun hps => (prioritize hps).filter (fun a => a ≠ ""))), none) ∧
      APIAddresses prioritize res =
        (⟨res.servers.flatMap
          (fun hps => (prioritize hps).filter (fun a => a ≠ ""))⟩, none)) ∧
    (∀ e, res.err = some e →
      apiAddresses prioritize res = (none, some e) ∧
      APIAddresses prioritize res = (⟨[]⟩, some e)) := by
  constructor
  · intro hnone
    have h1 : apiAddresses prioritize res =
        (some (res.servers.flatMap
          (fun hps => (prioritize hps).filter (fun a => a ≠ ""))), none) := by
      unfold apiAddresses
      rw [hnone]
      rw [foldl_servers]
      simp
    refine ⟨h1, ?_⟩
    unfold APIAddresses
    rw [h1]
    rfl
  · intro e he
    have h1 : apiAddresses prioritize res = (none, some e) := by
      unfold apiAddresses
      rw [he]
    refine ⟨h1, ?_⟩
    unfold APIAddresses
    rw [h1]

/- ===================== Manifold theorem ===================== -/

/-- Claim C7: the peergrouper manifold declares exactly the inputs agent,
clock and state; Start fails with the missing-dependency error when any of
them is unavailable, and on success builds a Config whose MongoPort is the
agent's StateServingInfo.StatePort, whose APIPort is its APIPort, whose
SupportsSpaces flag is the ControllerSupportsSpaces result, carrying the
configured clock and hub. -/
theorem peergrouper_manifold_spec :
    manifoldInputs = ["agent", "clock", "state"] ∧
    (∀ (f : StatePoolRes → Except String Bool) (hub : HubRes)
      (ctx : ManifoldContext),
      (ctx.agent = none ∨ ctx.clock = none ∨ ctx.statePool = none) →
      manifoldStart f hub ctx = Except.error StartError.missingDependency) ∧
    (∀ (f : StatePoolRes → Except String Bool) (hub : HubRes)
      (ctx : ManifoldContext) (ag : AgentRes) (ck : ClockRes)
      (st : StatePoolRes) (info : StateServingInfo) (b : Bool),
      ctx.agent = some ag → ctx.clock = some ck → ctx.statePool = some st →
      ag.servingInfo = some info → f st = Except.ok b →
      manifoldStart f hub ctx =
        Except.ok ⟨info.StatePort, info.APIPort, b, ck, hub⟩) := by
  refine ⟨rfl, ?_, ?_⟩
  · intro f hub ctx h
    rcases h with h | h | h
    · simp [manifoldStart, h]
    · cases hag : ctx.agent with
      | none => simp [manifoldStart, hag]
      | some ag => simp [manifoldStart, hag, h]
    · cases hag : ctx.agent with
      | none => simp [manifoldStart, hag]
      | some ag =>
        cases hck : ctx.clock with
        | none => simp [manifoldStart, hag, hck]
        | some ck => simp [manifoldStart, hag, hck, h]
  · intro f hub ctx ag ck st info b hag hck hst hinfo hb
    simp [manifoldStart, hag, hck, hst, hinfo, hb]

/- ===================== storage Client.Show theorem ===================== -/

lemma show_foldl_spec (results : List StorageShowResult) (i e : List String) :
    results.foldl
      (fun (p : List String × List String) r =>
        match r.error with
        | some err => (p.1, p.2 ++ [err])
        | none => (p.1 ++ [r.result], p.2)) (i, e) =
    (i ++ (results.filter (fun r => r.error = none)).map (fun r => r.result),
     e ++ results.filterMap (fun r => r.error)) := by
  induction results generalizing i e with
  | nil => simp
  | cons r rest ih =>
    cases he : r.error with
    | some err =>
      simp only [List.foldl_cons, he, List.filter_cons, List.filterMap_cons]
      rw [ih]
      simp [he, List.append_assoc]
    | none =>
      simp only [List.foldl_cons, he, List.filter_cons, List.filterMap_cons]
      rw [ih]
      simp [he, List.append_assoc]

/-- Claim C8: Client.Show discards the successful per-entity results and
returns a single error joining all per-result error strings with ", "
whenever any result carries an error; with no errors it returns exactly the
successful StorageInstance payloads in result order. -/
theorem storage_show_spec (results : List StorageShowResult) :
    ((∃ r ∈ results, r.error ≠ none) →
      StorageClient.Show (Except.ok results) =
        Except.error (String.intercalate ", "
          (results.filterMap (fun r => r.error)))) ∧
    ((∀ r ∈ results, r.error = none) →
      StorageClient.Show (Except.ok results) =
        Except.ok (results.map (fun r => r.result))) := by
  constructor
  · rintro ⟨r, hr, he⟩
    have hne : results.filterMap (fun r => r.error) ≠ [] := by
      intro hc
      exact he (List.filterMap_eq_nil_iff.mp hc r hr)
    have hlen : 0 < (results.filterMap (fun r => r.error)).length :=
      List.length_pos.mpr hne
    simp only [StorageClient.Show]
    rw [show_foldl_spec results [] []]
    simp only [List.nil_append]
    rw [if_pos hlen]
  · intro hall
    have hnil : results.filterMap (fun r => r.error) = [] :=
      List.filterMap_eq_nil_iff.mpr (fun a ha => hall a ha)
    have hfil : results.filter (fun r => r.error = none) = results :=
      List.filter_eq_self.mpr (fun a ha => by simp [hall a ha])
    simp only [StorageClient.Show]
    rw [show_foldl_spec results [] []]
    simp only [List.nil_append, hnil, hfil]
    simp

/- ===================== jujuc Main theorem ===================== -/

/-- Claim C9: Jujuc.Main rejects short/absent Args, non-absolute Dir, and an
unobtainable command set with a "bad request" error while leaving the
Response untouched; otherwise it runs the command, fills the Response from
the run and returns no error. -/
theorem jujuc_main_spec {γ : Type} (getCmds : String → Except String γ)
    (isAbs : String → Bool)
    (runMain : γ → String → List String → Int × String × String)
    (req : JujucRequest) (resp : JujucResponse) :
    ((req.args = none ∨ (req.args.getD []).length < 1) →
      Jujuc.Main getCmds isAbs runMain req resp =
        (resp, some "bad request: Args is too short")) ∧
    (¬(req.args = none ∨ (req.args.getD []).length < 1) → isAbs req.dir = false →
      Jujuc.Main getCmds isAbs runMain req resp =
        (resp, some "bad request: Dir is not absolute")) ∧
    (∀ e, ¬(req.args = none ∨ (req.args.getD []).length < 1) →
      isAbs req.dir = true → getCmds req.contextId = Except.error e →
      Jujuc.Main getCmds isAbs runMain req resp =
        (resp, some ("bad request: " ++ e))) ∧
    (∀ cmds, ¬(req.args = none ∨ (req.args.getD []).length < 1) →
      isAbs req.dir = true → getCmds req.contextId = Except.ok cmds →
      Jujuc.Main getCmds isAbs runMain req resp =
        (⟨(runMain cmds req.dir (req.args.getD [])).1,
          (runMain cmds req.dir (req.args.getD [])).2.1,
          (runMain cmds req.dir (req.args.getD [])).2.2⟩, none)) := by
  refine ⟨?_, ?_, ?_, ?_⟩
  · intro h
    unfold Jujuc.Main badReqErr
    rw [if_pos h]
    exact congrArg (fun s => (resp, some s)) rfl
  · intro h habs
    unfold Jujuc.Main badReqErr
    rw [if_neg h, if_pos (by simp [habs])]
    exact congrArg (fun s => (resp, some s)) rfl
  · intro e h habs hget
    unfold Jujuc.Main badReqErr
    rw [if_neg h, if_neg (by simp [habs]), hget]
  · intro cmds h habs hget
    unfold Jujuc.Main badReqErr
    rw [if_neg h, if_neg (by simp [habs]), hget]

/- ===================== txn queue guard theorem ===================== -/

/-- Claim C10: a Runner built by NewRunner defaults MaxTxnQueueLength to
1000; with a positive limit, applying a transaction to a document whose
txn-queue would exceed the limit aborts with the too-many-transactions error
and leaves the queue unchanged; a limit of 0 disables the check. -/
theorem txn_queue_guard_spec :
    (NewRunner "txns").opts.MaxTxnQueueLength = 1000 ∧
    (∀ (opts : RunnerOptions) (d : TxnDoc) (token : String),
      0 < opts.MaxTxnQueueLength →
      opts.MaxTxnQueueLength < ((d.txnQueue.length + 1 : Nat) : Int) →
      flusherApply opts d token =
        (d, some (tooManyMsg d (d.txnQueue.length + 1)))) ∧
    (∀ (opts : RunnerOptions) (d : TxnDoc) (token : String),
      opts.MaxTxnQueueLength = 0 →
      flusherApply opts d token =
        ({ d with txnQueue := d.txnQueue ++ [token] }, none)) := by
  refine ⟨rfl, ?_, ?_⟩
  · intro opts d token hpos hlt
    unfold flusherApply
    have hq : (d.txnQueue ++ [token]).length = d.txnQueue.length + 1 := by
      simp
    rw [if_pos]
    · rw [hq]
    · constructor
      · exact hpos
      · rw [hq]
        exact hlt
  · intro opts d token h0
    unfold flusherApply
    rw [if_neg]
    rw [h0]
    simp

/- ===================== Witnesses and counterexamples ===================== -/

theorem computeTopology_odd_voters_witness :
    Odd (vmem tBoot3).card ∧ 1 ≤ (vmem tBoot3).card :=
  computeTopology_odd_voters snapThree topoEmpty tBoot3 (by decide)

theorem quorum_formula_fails_at_bootstrap :
    computeTopology snapOne topoEmpty = ComputeResult.change tOne ∧
    (vmem topoEmpty ∩ vmem tOne).card = 0 ∧
    majority (vmem topoEmpty).card = 1 := by decide

theorem computeTopology_quorum_retained_witness :
    majority (vmem topoSwap).card ≤ (vmem topoSwap ∩ vmem tSwapOut).card :=
  computeTopology_quorum_retained snapSwap topoSwap tSwapOut (by decide) (by decide)

theorem single_change_fails_at_swap :
    computeTopology snapSwap topoSwap = ComputeResult.change tSwapOut ∧
    1 < structDelta topoSwap tSwapOut := by decide

theorem computeTopology_single_step_witness :
    presenceDelta topoSwap tSwapOut ≤ 1 ∧ structDelta topoSwap tSwapOut ≤ 2 :=
  computeTopology_single_step snapSwap topoSwap tSwapOut (by decide) (by decide)

theorem convergence_fails_with_no_eligible :
    computeTopology [] topoEmpty = ComputeResult.fatal ∧
    ∀ k, iterCompute [] k topoEmpty = ComputeResult.fatal := by
  refine ⟨by decide, ?_⟩
  intro k
  induction k with
  | zero => decide
  | succ k _ =>
    show iterCompute [] (k + 1) topoEmpty = ComputeResult.fatal
    simp only [iterCompute]
    rw [show computeTopology [] topoEmpty = ComputeResult.fatal from by decide]

theorem computeTopology_converges_witness :
    ∃ k, iterCompute snapOne k topoEmpty = ComputeResult.noChange :=
  computeTopology_converges snapOne topoEmpty (by decide)

theorem publish_once_per_set_fails :
    publishCount none [[hpA], [hpB], [hpA]] = 3 ∧
    (([[hpA], [hpB], [hpA]] : List (List HostPort)).map
      (fun d => d.toFinset)).toFinset.card = 2 := by decide

theorem publisher_dedup_witness :
    publishStep (some {hpA}) [hpA] = (some {hpA}, false) ∧
    publishCount (some {hpA}) [[hpA], [hpA]] ≤ 1 :=
  ⟨publisher_dedup.1 {hpA} [hpA] (by decide),
   publisher_dedup.2.2 (some {hpA}) [[hpA], [hpA]] {hpA} (by decide)⟩

theorem apiAddresses_spec_witness :
    apiAddresses prioHost resOk6 = (some ["10.0.0.1", "10.0.0.2"], none) ∧
    APIAddresses prioHost resErr6 = (⟨[]⟩, some "boom") :=
  ⟨((apiAddresses_spec prioHost resOk6).1 rfl).1,
   ((apiAddresses_spec prioHost resErr6).2 "boom" rfl).2⟩

theorem peergrouper_manifold_spec_witness :
    manifoldStart check7 hub7 ctx7Missing =
      Except.error StartError.missingDependency ∧
    manifoldStart check7 hub7 ctx7 = Except.ok ⟨1234, 5678, true, ⟨7⟩, hub7⟩ :=
  ⟨peergrouper_manifold_spec.2.1 check7 hub7 ctx7Missing (Or.inl rfl),
   peergrouper_manifold_spec.2.2 check7 hub7 ctx7 ⟨some ⟨1234, 5678⟩⟩ ⟨7⟩ ⟨9⟩
     ⟨1234, 5678⟩ true rfl rfl rfl rfl rfl⟩

theorem storage_show_spec_witness :
    StorageClient.Show (Except.ok resultsMixed) = Except.error "boom, bang" ∧
    StorageClient.Show (Except.ok resultsClean) = Except.ok ["inst-0", "inst-1"] :=
  ⟨(storage_show_spec resultsMixed).1 ⟨⟨some "boom", ""⟩, by decide, by decide⟩,
   (storage_show_spec resultsClean).2 (by decide)⟩

theorem jujuc_main_spec_witness :
    Jujuc.Main getCmds9 isAbs9 runMain9 reqShort9 resp9 =
      (resp9, some "bad request: Args is too short") ∧
    Jujuc.Main getCmds9 isAbs9 runMain9 reqGood9 resp9 = (⟨0, "out", ""⟩, none) :=
  ⟨(jujuc_main_spec getCmds9 isAbs9 runMain9 reqShort9 resp9).1
     (Or.inr (by decide)),
   (jujuc_main_spec getCmds9 isAbs9 runMain9 reqGood9 resp9).2.2.2 1
     (by decide) rfl rfl⟩

theorem txn_queue_guard_spec_witness :
    flusherApply opts10 doc10 "t-3" =
      (doc10, some "txn-queue for 0 in \"accounts\" has too many transactions (3)") ∧
    flusherApply ⟨0⟩ doc10 "t-3" =
      (⟨"0", "accounts", ["t-1", "t-2", "t-3"]⟩, none) :=
  ⟨txn_queue_guard_spec.2.1 opts10 doc10 "t-3" (by decide) (by decide),
   txn_queue_guard_spec.2.2 ⟨0⟩ doc10 "t-3" rfl⟩
